import Mathlib

/-
Verification of the AegisRPG real-time game backend.

This file gives a shallow embedding, in Lean 4, of the server-authoritative
core of the repository:

  * `MatchManager` (src/backend-essential/MatchManager.js, first module):
    match lifecycle, deterministic terrain / room generation, statistics.
  * `ServerAuthority` (src/backend-essential/MatchManager.js, second module):
    movement / combat / item validation and anti-cheat bookkeeping.
  * `GameServer` (src/backend-essential/gameServer.js): session registry and
    connection lifecycle (the parts relevant to match/session bookkeeping).

Modelling conventions, used throughout:

  * JavaScript `Map` objects are modelled as association lists
    (`List (κ × α)`) with the `alGet` / `alSet` / `alModify` / `alErase`
    operations below.  `Map.set` on an existing key replaces in place (so
    insertion order, which JS preserves and the statistics code iterates in,
    is preserved); on a new key it appends.
  * JavaScript numbers are modelled as `ℚ` (all the arithmetic the claims
    touch is exact at this scale, far below 2^53, so rationals agree with
    IEEE doubles), except for the bit-twiddling hash `hashCoords`, where the
    JS `<<` operator coerces to 32-bit integers: there we work on `ℤ` with an
    explicit `toInt32` wrap.  Fractional literals such as `0.8` are exact in
    `ℚ`; the decimal threshold comparisons in the source compare doubles
    whose order agrees with the rational order at the 1/1000 resolution used.
  * `Math.sqrt d2 > m` comparisons are encoded by the decidable test
    `ServerAuthority.sqrtGt d2 m`; the lemma `ServerAuthority.sqrtGt_correct`
    proves it equivalent to the real-number statement `m < Real.sqrt d2`.
  * `Date.now()` and `Math.random()` are ambient effects in the source; the
    embedding passes them explicitly (`now`, `r`, ... parameters).
-/

/-! ## Association-list primitives (JavaScript `Map` / `Set` model) -/

section AList

variable {κ : Type} {α : Type} [DecidableEq κ]

/-- `Map.get`: first binding for the key, if any. -/
def alGet : List (κ × α) → κ → Option α
  | [], _ => none
  | (k', v) :: t, k => if k = k' then some v else alGet t k

/-- `Map.set`: replace the binding in place if the key is present, else
append (JS `Map` preserves insertion order). -/
def alSet : List (κ × α) → κ → α → List (κ × α)
  | [], k, v => [(k, v)]
  | (k', v') :: t, k, v => if k = k' then (k, v) :: t else (k', v') :: alSet t k v

/-- Mutate the value bound to a key in place (the JS pattern
`const o = map.get(k); o.field = ...`); no-op if the key is absent. -/
def alModify : List (κ × α) → κ → (α → α) → List (κ × α)
  | [], _, _ => []
  | (k', v) :: t, k, f => if k' = k then (k', f v) :: t else (k', v) :: alModify t k f

/-- `Map.delete`. -/
def alErase (l : List (κ × α)) (k : κ) : List (κ × α) :=
  l.filter fun p => p.1 ≠ k

/-- `Map.has`. -/
def alHas (l : List (κ × α)) (k : κ) : Bool :=
  (alGet l k).isSome

end AList

namespace MatchManager

/-! ## MatchManager: deterministic terrain generation
(src/backend-essential/MatchManager.js lines 107-229) -/

/-- JS `ToInt32`: wrap an integer into the signed 32-bit range, as the `<<`
operator does to its operands and result. -/
def toInt32 (n : Int) : Int :=
  let m := n % 4294967296
  if m < 2147483648 then m else m - 4294967296

/-- `hash << 5` in JS: both the operand and the result are coerced to a
signed 32-bit integer. -/
def shiftLeft5 (h : Int) : Int :=
  toInt32 (toInt32 h * 32)

/-- `hashCoords(x, y, seed)` (MatchManager.js lines 197-202):
`hash = seed; hash = ((hash << 5) + hash) + x; hash = ((hash << 5) + hash) + y;
return Math.abs(hash)`.  The two additions after the shift are double
additions; at the magnitudes reachable from the game's seeds and coordinates
they are exact, so `ℤ` arithmetic is faithful. -/
def hashCoords (x y seed : Int) : Int :=
  let h0 := seed
  let h1 := shiftLeft5 h0 + h0 + x
  let h2 := shiftLeft5 h1 + h1 + y
  |h2|

/-- `generateTerrainType(x, y, seed)` (lines 177-192): hash-based thresholds
with a horizontal road band through the origin. -/
def generateTerrainType (x y seed : Int) : String :=
  let hash := hashCoords x y seed
  let value : ℚ := ((hash % 1000 : Int) : ℚ) / 1000
  if y = 0 ∧ |x| ≤ 5 then "road"
  else if value > 0.8 then "mountain"
  else if value > 0.6 then "forest"
  else if value > 0.4 then "hills"
  else if value > 0.2 then "grass"
  else if value > 0.1 then "water"
  else "deep_water"

/-- A fixed landmark entry of the server map (lines 126-135). -/
structure Landmark where
  x : Int
  y : Int
  type : String
  name : String
deriving DecidableEq

/-- World-map bounds record (line 122). -/
structure Bounds where
  minX : Int
  maxX : Int
  minY : Int
  maxY : Int
deriving DecidableEq

/-- The per-match server map: seed, fixed landmarks, terrain cache
(lines 117-143). -/
structure WorldMap where
  seed : Int
  landmarks : List ((Int × Int) × Landmark)
  terrainCache : List ((Int × Int) × String)
  bounds : Bounds
deriving DecidableEq

/-- `generateServerMap(seed)` (lines 117-143): the eight fixed landmarks,
keyed by coordinate, with an empty terrain cache. -/
def generateServerMap (seed : Int) : WorldMap :=
  let landmarks : List Landmark :=
    [ ⟨0, 0, "town", "Central Town"⟩,
      ⟨5, -3, "village", "Riverside Village"⟩,
      ⟨-7, 4, "dungeon", "Dark Depths"⟩,
      ⟨2, 8, "ruins", "Ancient Ruins"⟩,
      ⟨-4, -6, "cave", "Crystal Cave"⟩,
      ⟨10, 2, "tower", "Wizard Tower"⟩,
      ⟨-10, -10, "village", "Northern Outpost"⟩,
      ⟨15, 15, "dungeon", "Eastern Stronghold"⟩ ]
  { seed := seed
    landmarks := landmarks.map fun lm => ((lm.x, lm.y), lm)
    terrainCache := []
    bounds := ⟨-50, 50, -50, 50⟩ }

/-- `getTerrainType` on a match's map (lines 148-172): cache first, then the
landmark table, then the seeded hash; the computed value is written into the
cache.  (The enclosing method resolves `matchId` and returns `'grass'` for an
unknown match; the claims are per match, so the map-level function is
embedded.) -/
def getTerrainType (map : WorldMap) (worldX worldY : Int) : String × WorldMap :=
  let key := (worldX, worldY)
  match alGet map.terrainCache key with
  | some cached => (cached, map)
  | none =>
    match alGet map.landmarks key with
    | some lm => (lm.type, { map with terrainCache := alSet map.terrainCache key lm.type })
    | none =>
      let terrain := generateTerrainType worldX worldY map.seed
      (terrain, { map with terrainCache := alSet map.terrainCache key terrain })

/-- The cache-free derivation `getTerrainType` is specified against: the
landmark table first, otherwise the seeded hash (the two non-cache branches
of lines 159-171). -/
def derivedTerrain (landmarks : List ((Int × Int) × Landmark)) (seed x y : Int) : String :=
  match alGet landmarks (x, y) with
  | some lm => lm.type
  | none => generateTerrainType x y seed

/-! ## Terrain accessibility (lines 19-51 and 204-229) -/

/-- One entry of the `TERRAIN_ACCESS` table. -/
structure AccessInfo where
  accessible : Bool
  roomType : Option String
  description : String
deriving DecidableEq

/-- The `TERRAIN_ACCESS` table (lines 20-51). -/
def TERRAIN_ACCESS : String → Option AccessInfo
  | "grass" => some ⟨true, some "field", "Open grassland"⟩
  | "forest" => some ⟨true, some "forest", "Light forest with trees"⟩
  | "hills" => some ⟨true, some "hills", "Rolling hills"⟩
  | "water" => some ⟨true, some "shore", "Shallow water, beach access"⟩
  | "beach" => some ⟨true, some "beach", "Sandy coastline"⟩
  | "desert" => some ⟨true, some "desert", "Arid desert terrain"⟩
  | "road" => some ⟨true, some "road", "Clear travel path"⟩
  | "bridge" => some ⟨true, some "bridge", "River crossing"⟩
  | "swamp" => some ⟨true, some "swamp", "Dangerous wetlands"⟩
  | "ruins" => some ⟨true, some "ruins", "Ancient ruins to explore"⟩
  | "cave" => some ⟨true, some "cave", "Dark cave entrance"⟩
  | "camp" => some ⟨true, some "camp", "Temporary encampment"⟩
  | "portal" => some ⟨true, some "portal", "Magical portal site"⟩
  | "temple" => some ⟨true, some "temple", "Sacred temple grounds"⟩
  | "town" => some ⟨true, some "town", "Bustling town center"⟩
  | "city" => some ⟨true, some "city", "Large city district"⟩
  | "village" => some ⟨true, some "village", "Small village"⟩
  | "tower" => some ⟨true, some "tower", "Wizard tower interior"⟩
  | "dungeon" => some ⟨true, some "dungeon", "Dangerous dungeon entrance"⟩
  | "deep_water" => some ⟨false, none, "Deep ocean waters - impassable"⟩
  | "dense_forest" => some ⟨false, none, "Impenetrable thick forest"⟩
  | "mountain" => some ⟨false, none, "Steep mountain cliffs - impassable"⟩
  | "cliff" => some ⟨false, none, "Sheer cliff face - impassable"⟩
  | _ => none

/-- `isTerrainAccessible` (lines 207-210): `accessInfo && accessInfo.accessible`. -/
def isTerrainAccessible (terrainType : String) : Bool :=
  match TERRAIN_ACCESS terrainType with
  | some info => info.accessible
  | none => false

/-- `getTerrainAccessInfo` (lines 215-221): table lookup with the
impassable-unknown default. -/
def getTerrainAccessInfo (terrainType : String) : AccessInfo :=
  (TERRAIN_ACCESS terrainType).getD ⟨false, none, "Unknown terrain - impassable"⟩

/-! ## Room generation (lines 234-550) -/

/-- One cell of `generateRoomTerrain` (lines 279-409): the border branch
first, then the per-room-type switch over `value = (hash % 100) / 100`.
`x` and `y` range over `0..19`; the JS `default:` label sits on the
`'field'` body, so every room type not listed falls through to it. -/
def roomCell (roomType : String) (seed : Int) (x y : Nat) : String :=
  if x = 0 ∨ x = 19 ∨ y = 0 ∨ y = 19 then "wall"
  else
    let hash := hashCoords (x : Int) (y : Int) seed
    let value : ℚ := ((hash % 100 : Int) : ℚ) / 100
    match roomType with
    | "town" | "city" | "village" =>
      if (x = 5 ∨ x = 15) ∧ 2 ≤ y ∧ y ≤ 17 then "wall" else "floor"
    | "dungeon" => if value > 0.75 then "wall" else "floor"
    | "cave" => if value > 0.8 then "wall" else "floor"
    | "forest" => if value > 0.65 then "wall" else "floor"
    | "shore" =>
      if y < 5 then "water"
      else if y < 8 then (if value > 0.7 then "water" else "floor")
      else "floor"
    | "beach" => if value > 0.9 then "wall" else "floor"
    | "swamp" =>
      if value > 0.8 then "water"
      else if value > 0.9 then "wall"
      else "floor"
    | "desert" =>
      if value > 0.95 then "water"
      else if value > 0.98 then "wall"
      else "floor"
    | "ruins" => if value > 0.6 then "wall" else "floor"
    | "temple" =>
      if (x = 10 ∧ 8 ≤ y ∧ y ≤ 12) ∨ (y = 10 ∧ 8 ≤ x ∧ x ≤ 12) then "floor"
      else if value > 0.7 then "wall"
      else "floor"
    | "tower" =>
      if 6 ≤ x ∧ x ≤ 14 ∧ 6 ≤ y ∧ y ≤ 14 then "floor" else "wall"
    | "bridge" => if 8 ≤ y ∧ y ≤ 12 then "floor" else "water"
    | "road" => if value > 0.98 then "wall" else "floor"
    | "hills" => if value > 0.85 then "wall" else "floor"
    | "portal" =>
      if x = 10 ∧ y = 10 then "portal"
      else if value > 0.9 then "wall"
      else "floor"
    | "camp" =>
      if (x = 8 ∨ x = 12) ∧ (y = 8 ∨ y = 12) then "wall" else "floor"
    | _ => if value > 0.95 then "wall" else "floor"

/-- `generateRoomTerrain(roomType, seed)` (lines 279-409): a 20 x 20 grid
built row by row (outer loop `y`, inner loop `x`), so `terrain[y][x]`. -/
def generateRoomTerrain (roomType : String) (seed : Int) : List (List String) :=
  (List.range 20).map fun y => (List.range 20).map fun x => roomCell roomType seed x y

/-- One cell of `generateRoomEntities` (lines 414-550): the hash is taken at
`(x + 100, y + 100)` and normalised over 1000; the switch mirrors the source
branch order exactly (including branches shadowed by earlier ones). -/
def entityCell (roomType : String) (seed : Int) (x y : Nat) : String :=
  let hash := hashCoords ((x : Int) + 100) ((y : Int) + 100) seed
  let value : ℚ := ((hash % 1000 : Int) : ℚ) / 1000
  match roomType with
  | "town" | "city" =>
    if (x = 7 ∧ y = 5) ∨ (x = 13 ∧ y = 5) then "NPC"
    else if x = 10 ∧ y = 15 then "CHEST"
    else if value > 0.95 then "NPC"
    else "NONE"
  | "village" =>
    if x = 10 ∧ y = 5 then "NPC"
    else if value > 0.97 then "ITEM"
    else if value > 0.99 then "NPC"
    else "NONE"
  | "dungeon" =>
    if value > 0.96 then "ENEMY"
    else if value > 0.93 then "TRAP"
    else if value > 0.89 then "CHEST"
    else "NONE"
  | "cave" =>
    if value > 0.97 then "ENEMY"
    else if value > 0.94 then "CHEST"
    else if value > 0.98 then "TRAP"
    else "NONE"
  | "forest" =>
    if value > 0.96 then "ENEMY"
    else if value > 0.92 then "ITEM"
    else "NONE"
  | "shore" | "beach" =>
    if value > 0.98 then "ENEMY"
    else if value > 0.95 then "ITEM"
    else if value > 0.99 then "CHEST"
    else "NONE"
  | "swamp" =>
    if value > 0.95 then "ENEMY"
    else if value > 0.97 then "TRAP"
    else if value > 0.93 then "ITEM"
    else "NONE"
  | "desert" =>
    if value > 0.98 then "ENEMY"
    else if value > 0.96 then "ITEM"
    else if value > 0.99 then "CHEST"
    else "NONE"
  | "ruins" =>
    if value > 0.94 then "CHEST"
    else if value > 0.97 then "TRAP"
    else if value > 0.98 then "ENEMY"
    else "NONE"
  | "temple" =>
    if x = 10 ∧ y = 10 then "NPC"
    else if value > 0.96 then "CHEST"
    else if value > 0.98 then "ITEM"
    else "NONE"
  | "tower" =>
    if x = 10 ∧ y = 10 then "NPC"
    else if value > 0.94 then "CHEST"
    else if value > 0.97 then "ITEM"
    else "NONE"
  | "bridge" =>
    if value > 0.99 then "NPC"
    else if value > 0.97 then "ITEM"
    else "NONE"
  | "road" =>
    if value > 0.98 then "NPC"
    else if value > 0.995 then "ITEM"
    else "NONE"
  | "hills" =>
    if value > 0.97 then "ITEM"
    else if value > 0.99 then "ENEMY"
    else "NONE"
  | "portal" =>
    if value > 0.95 then "ITEM"
    else if value > 0.98 then "ENEMY"
    else "NONE"
  | "camp" =>
    if value > 0.96 then "NPC"
    else if value > 0.98 then "ITEM"
    else "NONE"
  | _ =>
    if value > 0.99 then "ITEM"
    else if value > 0.995 then "ENEMY"
    else "NONE"

/-- `generateRoomEntities(roomType, seed)` (lines 414-550): a 20 x 20 grid,
`entities[y][x]`. -/
def generateRoomEntities (roomType : String) (seed : Int) : List (List String) :=
  (List.range 20).map fun y => (List.range 20).map fun x => entityCell roomType seed x y

/-- A generated room (lines 257-268). -/
structure Room where
  worldPos : Int × Int
  terrainType : String
  roomType : String
  seed : Int
  size : Nat × Nat
  terrain : List (List String)
  entities : List (List String)
  discovered : Bool
  exploredBy : List String
  description : String
deriving DecidableEq

/-! ## Match state (lines 59-105) -/

/-- A world-grid plus room-local position pair (line 87). World coordinates
are the integer grid the rooms are keyed by. -/
structure WorldRoomPos where
  worldX : Int
  worldY : Int
  roomX : Int
  roomY : Int
deriving DecidableEq

/-- Per-player match-scoped state (lines 83-98). -/
structure MMPlayerState where
  playerId : String
  username : String
  status : String
  position : WorldRoomPos
  health : ℚ
  kills : Nat
  deaths : Nat
  itemsCollected : Nat
  roomsExplored : List (Int × Int)
  damageDealt : ℚ
  damageTaken : ℚ
  deathTime : Option ℚ
  firstKillTime : Option ℚ
  lastActivity : ℚ
deriving DecidableEq

/-- The `stats` maps held by a match (lines 73-78). The per-player item map
stores `itemType -> count`. -/
structure MMStats where
  kills : List (String × Nat)
  deaths : List (String × Nat)
  itemsCollected : List (String × List (String × Nat))
  roomsExplored : List (String × Nat)
deriving DecidableEq

/-- A match (lines 63-79). -/
structure MMMatchState where
  matchId : String
  seed : Int
  status : String
  players : List (String × MMPlayerState)
  map : WorldMap
  rooms : List ((Int × Int) × Room)
  startTime : ℚ
  endTime : Option ℚ
  winner : Option String
  stats : MMStats
deriving DecidableEq

/-- `createMatch(players)` (lines 59-105).  The source draws `matchId` from
`uuidv4()` and the seed from `MAP_SEED + Math.floor(Math.random()*1000000)`
(`generateMatchSeed`, lines 110-112); both are passed explicitly here, as is
`Date.now()`. -/
def createMatch (players : List (String × String)) (matchId : String) (seed : Int)
    (now : ℚ) : MMMatchState :=
  { matchId := matchId
    seed := seed
    status := "STARTING"
    players := players.map fun p =>
      (p.1,
        { playerId := p.1
          username := p.2
          status := "ALIVE"
          position := ⟨0, 0, 3, 4⟩
          health := 100
          kills := 0
          deaths := 0
          itemsCollected := 0
          roomsExplored := []
          damageDealt := 0
          damageTaken := 0
          deathTime := none
          firstKillTime := none
          lastActivity := now })
    map := generateServerMap seed
    rooms := []
    startTime := now
    endTime := none
    winner := none
    stats := ⟨[], [], [], []⟩ }

/-- `getTerrainType` threaded through a whole match (the method takes the
match id and mutates `match.map.terrainCache`). -/
def getTerrainTypeM (m : MMMatchState) (worldX worldY : Int) : String × MMMatchState :=
  let r := getTerrainType m.map worldX worldY
  (r.1, { m with map := r.2 })

/-- `generateRoomData(matchId, worldX, worldY)` (lines 234-274): cached room
first; otherwise the terrain accessibility gate, then a freshly generated
room cached under the coordinate.  `accessInfo.roomType` is a string on
every accessible table row; `getD` unwraps the option. -/
def generateRoomData (m : MMMatchState) (worldX worldY : Int) :
    Option Room × MMMatchState :=
  let key := (worldX, worldY)
  match alGet m.rooms key with
  | some room => (some room, m)
  | none =>
    let tr := getTerrainTypeM m worldX worldY
    let terrainType := tr.1
    let m1 := tr.2
    let accessInfo := getTerrainAccessInfo terrainType
    if accessInfo.accessible = false then
      (none, m1)
    else
      let roomSeed := hashCoords worldX worldY m1.map.seed
      let roomData : Room :=
        { worldPos := (worldX, worldY)
          terrainType := terrainType
          roomType := accessInfo.roomType.getD ""
          seed := roomSeed
          size := (20, 20)
          terrain := generateRoomTerrain (accessInfo.roomType.getD "") roomSeed
          entities := generateRoomEntities (accessInfo.roomType.getD "") roomSeed
          discovered := false
          exploredBy := []
          description := accessInfo.description }
      (some roomData, { m1 with rooms := alSet m1.rooms key roomData })

/-- `startMatch` on a match (lines 555-571): marks it active and stamps the
start/end times.  The `setTimeout` scheduling the automatic
`endMatch(matchId, 'TIME_LIMIT')` is a timer, not state, and is not
modelled. -/
def startMatchM (m : MMMatchState) (now : ℚ) : MMMatchState :=
  { m with status := "ACTIVE", startTime := now, endTime := some (now + 300000) }

/-- `updatePlayerPosition(matchId, playerId, position)` (lines 837-862):
updates the match-scoped position/activity, marks the destination cell as
explored on first visit, and triggers room generation and discovery marking. -/
def updatePlayerPositionM (m : MMMatchState) (playerId : String)
    (position : WorldRoomPos) (now : ℚ) : Bool × MMMatchState :=
  match alGet m.players playerId with
  | none => (false, m)
  | some _ =>
    let m1 := { m with players := alModify m.players playerId fun p =>
      { p with position := position, lastActivity := now } }
    let worldKey := (position.worldX, position.worldY)
    match alGet m1.players playerId with
    | none => (true, m1)
    | some p1 =>
      if worldKey ∈ p1.roomsExplored then (true, m1)
      else
        let m2 := { m1 with players := alModify m1.players playerId fun p =>
          { p with roomsExplored := p.roomsExplored ++ [worldKey] } }
        let (roomData?, m3) := generateRoomData m2 position.worldX position.worldY
        match roomData? with
        | none => (true, m3)
        | some _ =>
          (true, { m3 with rooms := alModify m3.rooms worldKey fun r =>
            { r with discovered := true,
                     exploredBy := if playerId ∈ r.exploredBy then r.exploredBy
                                   else r.exploredBy ++ [playerId] } })

/-- `recordPlayerKill(matchId, killerId, victimId)` (lines 867-894). -/
def recordPlayerKill (m : MMMatchState) (killerId victimId : String) (now : ℚ) :
    Bool × MMMatchState :=
  match alGet m.players killerId, alGet m.players victimId with
  | some _, some _ =>
    let m1 := { m with players := alModify m.players killerId fun k =>
      let k' := { k with kills := k.kills + 1 }
      if k'.kills = 1 then { k' with firstKillTime := some now } else k' }
    let m2 := { m1 with players := alModify m1.players victimId fun v =>
      { v with deaths := v.deaths + 1, status := "DEAD", deathTime := some now } }
    let m3 := { m2 with stats :=
      { m2.stats with
          kills := alSet m2.stats.kills killerId ((alGet m2.stats.kills killerId).getD 0 + 1)
          deaths := alSet m2.stats.deaths victimId ((alGet m2.stats.deaths victimId).getD 0 + 1) } }
    (true, m3)
  | _, _ => (false, m)

/-- `recordItemCollection(matchId, playerId, itemType, quantity)`
(lines 899-915). -/
def recordItemCollection (m : MMMatchState) (playerId itemType : String)
    (quantity : Nat) : Bool × MMMatchState :=
  match alGet m.players playerId with
  | none => (false, m)
  | some _ =>
    let m1 := { m with players := alModify m.players playerId fun p =>
      { p with itemsCollected := p.itemsCollected + quantity } }
    let playerItems := (alGet m1.stats.itemsCollected playerId).getD []
    let playerItems' := alSet playerItems itemType ((alGet playerItems itemType).getD 0 + quantity)
    (true, { m1 with stats :=
      { m1.stats with itemsCollected := alSet m1.stats.itemsCollected playerId playerItems' } })

/-- `recordPlayerDamage(matchId, attackerId, targetId, damage)`
(lines 920-939): trusted bookkeeping; the target's health is floored at 0. -/
def recordPlayerDamage (m : MMMatchState) (attackerId targetId : String)
    (damage : ℚ) : Bool × MMMatchState :=
  match alGet m.players attackerId, alGet m.players targetId with
  | some _, some _ =>
    let m1 := { m with players := alModify m.players attackerId fun a =>
      { a with damageDealt := a.damageDealt + damage } }
    let m2 := { m1 with players := alModify m1.players targetId fun t =>
      { t with damageTaken := t.damageTaken + damage,
               health := max 0 (t.health - damage) } }
    (true, m2)
  | _, _ => (false, m)

/-! ## End-of-match statistics (lines 576-832)

`toFixed(n)` calls in the source format numbers into strings for display;
the embedding keeps the exact rational value.  The `playerRankings` sorts of
lines 747-756 are display ordering over the same `playerStats` list and are
not modelled. -/

/-- JS `opt || fallback` on an optional number: `null`/`undefined` and `0`
are falsy. -/
def jsOr (x : Option ℚ) (y : ℚ) : ℚ :=
  match x with
  | some v => if v = 0 then y else v
  | none => y

/-- JS `Set` accumulation: insert keeping first-insertion order. -/
def jsDedup {α : Type} [DecidableEq α] (l : List α) : List α :=
  l.foldl (fun s k => if k ∈ s then s else s ++ [k]) []

/-- `Math.max(...list)`: `none` for the empty list (JS `-Infinity`). -/
def jsMax (l : List ℚ) : Option ℚ :=
  match l with
  | [] => none
  | h :: t => some (t.foldl max h)

/-- The cache-or-derived terrain value at a coordinate, without the cache
write-back (the write-back never changes the value; see
`getTerrainType_deterministic_c1`). -/
def terrainValue (map : WorldMap) (x y : Int) : String :=
  (getTerrainType map x y).1

/-- `getUniqueTerrainTypesExplored` (lines 764-772). -/
def getUniqueTerrainTypesExplored (m : MMMatchState) (roomsExplored : List (Int × Int)) : Nat :=
  (jsDedup (roomsExplored.map fun k => terrainValue m.map k.1 k.2)).length

/-- `calculateCombatScore` (lines 777-797). -/
def calculateCombatScore (p : MMPlayerState) : ℚ :=
  let kills : ℚ := p.kills
  let deaths : ℚ := p.deaths
  let damageDealt := p.damageDealt
  let score := min (kills * 10) 50
  let score :=
    if p.deaths = 0 ∧ p.kills > 0 then score + 25
    else if p.deaths > 0 then score + min (kills / deaths * 5) 25
    else score
  let score := score + min (damageDealt / 50) 25
  min score 100

/-- `calculateExplorationScore` (lines 802-813). -/
def calculateExplorationScore (p : MMPlayerState) : ℚ :=
  let roomsExplored : ℚ := p.roomsExplored.length
  let itemsCollected : ℚ := p.itemsCollected
  let score := min (roomsExplored * 3) 60
  let score := score + min (itemsCollected * 2) 40
  min score 100

/-- `calculateSurvivalScore` (lines 818-832); note this helper falls back to
`matchDuration`, not the match end time, for a missing death time. -/
def calculateSurvivalScore (p : MMPlayerState) (matchDuration : ℚ) : ℚ :=
  let survivalTime :=
    if p.status = "ALIVE" then matchDuration else jsOr p.deathTime matchDuration - 0
  let survivalPercentage := survivalTime / matchDuration * 100
  let score := min (survivalPercentage * 0.7) 70
  let score := if p.status = "ALIVE" then score + 30 else score
  min score 100

/-- The per-player statistics object built at lines 659-691. -/
structure PlayerMatchStats where
  playerId : String
  username : String
  kills : Nat
  deaths : Nat
  damageDealt : ℚ
  damageTaken : ℚ
  kdr : ℚ
  itemsCollected : Nat
  roomsExplored : Nat
  uniqueTerrainTypes : Nat
  finalStatus : String
  survived : Bool
  survivalTime : ℚ
  survivalPercentage : ℚ
  lastActivity : ℚ
  totalPlayTime : ℚ
  combatScore : ℚ
  explorationScore : ℚ
  survivalScore : ℚ
  overallScore : ℚ
deriving DecidableEq

/-- The loop state of `calculateMatchStats` (lines 612-652 initialisation,
lines 654-739 loop body). -/
structure StatsAcc where
  playerStats : List PlayerMatchStats
  winner : Option PlayerMatchStats
  maxKills : Int
  firstKillTime : Option ℚ
  totalKills : Nat
  totalDeaths : Nat
  totalItemsCollected : Nat
  totalRoomsExplored : List (Int × Int)
  mostDeadlyPlayer : Option PlayerMatchStats
  maxExploration : Int
  mostExplorativePlayer : Option PlayerMatchStats
  maxItems : Int
  mostCollectorPlayer : Option PlayerMatchStats
  maxDamageDealt : ℚ
  longestSurvivalTime : ℚ
  longestSurvivor : Option PlayerMatchStats
deriving DecidableEq

/-- One iteration of the `for (const [playerId, playerState] of match.players)`
loop of `calculateMatchStats` (lines 654-739), in source statement order.
The winner update (lines 696-699) raises `maxKills` before the
record-holder check (lines 716-719) reads it. -/
def statsStep (m : MMMatchState) (now matchDuration : ℚ) (acc : StatsAcc)
    (entry : String × MMPlayerState) : StatsAcc :=
  let playerId := entry.1
  let ps := entry.2
  let survivalTime :=
    if ps.status = "ALIVE" then matchDuration
    else jsOr ps.deathTime (jsOr m.endTime now) - m.startTime
  let combatScore := calculateCombatScore ps
  let explorationScore := calculateExplorationScore ps
  let survivalScore := calculateSurvivalScore ps matchDuration
  let pstats : PlayerMatchStats :=
    { playerId := playerId
      username := ps.username
      kills := ps.kills
      deaths := ps.deaths
      damageDealt := ps.damageDealt
      damageTaken := ps.damageTaken
      kdr := if ps.deaths > 0 then (ps.kills : ℚ) / (ps.deaths : ℚ) else (ps.kills : ℚ)
      itemsCollected := ps.itemsCollected
      roomsExplored := ps.roomsExplored.length
      uniqueTerrainTypes := getUniqueTerrainTypesExplored m ps.roomsExplored
      finalStatus := ps.status
      survived := decide (ps.status = "ALIVE")
      survivalTime := survivalTime
      survivalPercentage := survivalTime / matchDuration * 100
      lastActivity := ps.lastActivity
      totalPlayTime := ps.lastActivity - m.startTime
      combatScore := combatScore
      explorationScore := explorationScore
      survivalScore := survivalScore
      overallScore := combatScore * 0.4 + explorationScore * 0.3 + survivalScore * 0.3 }
  let acc := { acc with playerStats := acc.playerStats ++ [pstats] }
  let acc :=
    if (ps.kills : Int) > acc.maxKills ∨ ((ps.kills : Int) = acc.maxKills ∧ ps.status = "ALIVE")
    then { acc with maxKills := (ps.kills : Int), winner := some pstats }
    else acc
  let acc :=
    if ps.kills > 0 ∧ acc.firstKillTime = none
    then { acc with firstKillTime := some (jsOr ps.firstKillTime (m.startTime + 60000)) }
    else acc
  let acc :=
    { acc with
        totalKills := acc.totalKills + ps.kills
        totalDeaths := acc.totalDeaths + ps.deaths
        totalItemsCollected := acc.totalItemsCollected + ps.itemsCollected
        totalRoomsExplored := ps.roomsExplored.foldl
          (fun s k => if k ∈ s then s else s ++ [k]) acc.totalRoomsExplored }
  let acc :=
    if (ps.kills : Int) > acc.maxKills
    then { acc with maxKills := (ps.kills : Int), mostDeadlyPlayer := some pstats }
    else acc
  let acc :=
    if (ps.roomsExplored.length : Int) > acc.maxExploration
    then { acc with maxExploration := (ps.roomsExplored.length : Int),
                    mostExplorativePlayer := some pstats }
    else acc
  let acc :=
    if (ps.itemsCollected : Int) > acc.maxItems
    then { acc with maxItems := (ps.itemsCollected : Int), mostCollectorPlayer := some pstats }
    else acc
  let acc :=
    if ps.damageDealt > acc.maxDamageDealt
    then { acc with maxDamageDealt := ps.damageDealt }
    else acc
  let acc :=
    if survivalTime > acc.longestSurvivalTime
    then { acc with longestSurvivalTime := survivalTime, longestSurvivor := some pstats }
    else acc
  acc

/-- `stats.matchStats` (lines 621-631, finalised at lines 741-744). -/
structure MatchStatsTotals where
  totalKills : Nat
  totalDeaths : Nat
  totalItemsCollected : Nat
  totalRoomsExplored : Nat
  averageRoomsPerPlayer : ℚ
  mostDeadlyPlayer : Option PlayerMatchStats
  mostExplorativePlayer : Option PlayerMatchStats
  mostCollectorPlayer : Option PlayerMatchStats
  longestSurvivor : Option PlayerMatchStats
deriving DecidableEq

/-- `stats.mapStats` (lines 632-637). -/
structure MapStats where
  totalRoomsGenerated : Nat
  seedUsed : Int
  accessibleTerrainTypes : List String
  roomTypesGenerated : List String
deriving DecidableEq

/-- `stats.timestamps` (lines 638-643). -/
structure MatchTimestamps where
  matchStart : ℚ
  matchEnd : ℚ
  firstKill : Option ℚ
  lastActivity : Option ℚ
deriving DecidableEq

/-- The result object of `calculateMatchStats` (lines 608-644 shell). -/
structure MatchStatsResult where
  matchId : String
  totalPlayers : Nat
  duration : ℚ
  winner : Option PlayerMatchStats
  playerStats : List PlayerMatchStats
  matchStats : MatchStatsTotals
  mapStats : MapStats
  timestamps : MatchTimestamps
deriving DecidableEq

/-- The `TERRAIN_ACCESS` object keys, in declaration order (for
`Object.keys`, line 635). -/
def TERRAIN_ACCESS_KEYS : List String :=
  ["grass", "forest", "hills", "water", "beach", "desert", "road", "bridge",
   "swamp", "ruins", "cave", "camp", "portal", "temple", "town", "city",
   "village", "tower", "dungeon", "deep_water", "dense_forest", "mountain", "cliff"]

/-- `calculateMatchStats(match)` (lines 605-759), with `Date.now()` passed
explicitly. -/
def calculateMatchStats (m : MMMatchState) (now : ℚ) : MatchStatsResult :=
  let matchDuration := jsOr m.endTime now - m.startTime
  let acc0 : StatsAcc :=
    { playerStats := []
      winner := none
      maxKills := -1
      firstKillTime := none
      totalKills := 0
      totalDeaths := 0
      totalItemsCollected := 0
      totalRoomsExplored := []
      mostDeadlyPlayer := none
      maxExploration := -1
      mostExplorativePlayer := none
      maxItems := -1
      mostCollectorPlayer := none
      maxDamageDealt := -1
      longestSurvivalTime := -1
      longestSurvivor := none }
  let acc := m.players.foldl (statsStep m now matchDuration) acc0
  { matchId := m.matchId
    totalPlayers := m.players.length
    duration := matchDuration
    winner := acc.winner
    playerStats := acc.playerStats
    matchStats :=
      { totalKills := acc.totalKills
        totalDeaths := acc.totalDeaths
        totalItemsCollected := acc.totalItemsCollected
        totalRoomsExplored := acc.totalRoomsExplored.length
        averageRoomsPerPlayer := (acc.totalRoomsExplored.length : ℚ) / (m.players.length : ℚ)
        mostDeadlyPlayer := acc.mostDeadlyPlayer
        mostExplorativePlayer := acc.mostExplorativePlayer
        mostCollectorPlayer := acc.mostCollectorPlayer
        longestSurvivor := acc.longestSurvivor }
    mapStats :=
      { totalRoomsGenerated := m.rooms.length
        seedUsed := m.map.seed
        accessibleTerrainTypes := TERRAIN_ACCESS_KEYS.filter isTerrainAccessible
        roomTypesGenerated := jsDedup (m.rooms.map fun r => r.2.roomType) }
    timestamps :=
      { matchStart := m.startTime
        matchEnd := jsOr m.endTime now
        firstKill := acc.firstKillTime
        lastActivity := jsMax (m.players.map fun p => p.2.lastActivity) } }

/-- The return object of `endMatch` (lines 594-599). -/
structure EndMatchResult where
  matchId : String
  reason : String
  duration : ℚ
  stats : MatchStatsResult
deriving DecidableEq

/-- `endMatch(matchId, reason)` (lines 576-600): marks the match ended,
stamps the end time, and computes the final statistics.  The deferred
30-second removal (`setTimeout`, line 589) is a timer, not state. -/
def endMatch (m : MMMatchState) (reason : String) (now : ℚ) :
    EndMatchResult × MMMatchState :=
  let m1 := { m with status := "ENDED", endTime := some now }
  let finalStats := calculateMatchStats m1 now
  (⟨m1.matchId, reason, now - m1.startTime, finalStats⟩, m1)

end MatchManager

namespace ServerAuthority

/-! ## ServerAuthority: configuration and geometry
(src/backend-essential/MatchManager.js, second module, lines 1163-1317) -/

/-- A flat world position with `x`/`y` coordinates, as read by
`calculateDistance` and `isPositionInBounds`. -/
structure Pos where
  x : ℚ
  y : ℚ
deriving DecidableEq

/-- `this.worldBounds` (lines 1166-1171). -/
structure WorldBoundsRec where
  minX : ℚ
  maxX : ℚ
  minY : ℚ
  maxY : ℚ
deriving DecidableEq

def worldBounds : WorldBoundsRec := ⟨0, 1000, 0, 1000⟩

/-- `this.maxMovementSpeed` (line 1174): units per second. -/
def maxMovementSpeed : ℚ := 5

/-- `this.combatRules` (lines 1294-1302). -/
structure CombatRulesRec where
  maxAttackRange : ℚ
  attackCooldown : ℚ
  maxDamagePerHit : ℚ
  minDamagePerHit : ℚ
  maxHealth : ℚ
  healthRegenRate : ℚ
  combatTimeout : ℚ
deriving DecidableEq

def combatRules : CombatRulesRec := ⟨50, 1500, 25, 5, 100, 0.5, 5000⟩

/-- `this.cheatDetection` (lines 1305-1310). -/
structure CheatDetectionRec where
  maxActionsPerSecond : ℚ
  maxMovementSpeedMultiplier : ℚ
  suspiciousActionThreshold : Nat
  autoKickThreshold : Nat
deriving DecidableEq

def cheatDetection : CheatDetectionRec := ⟨10, 2, 5, 10⟩

/-- `isPositionInBounds(pos)` (lines 1602-1605). -/
def isPositionInBounds (pos : Pos) : Bool :=
  decide (worldBounds.minX ≤ pos.x) && decide (pos.x ≤ worldBounds.maxX) &&
    decide (worldBounds.minY ≤ pos.y) && decide (pos.y ≤ worldBounds.maxY)

/-- The square of `calculateDistance(pos1, pos2)` (lines 1607-1611):
`dx * dx + dy * dy` under the square root. -/
def calculateDistanceSq (pos1 pos2 : Pos) : ℚ :=
  (pos1.x - pos2.x) ^ 2 + (pos1.y - pos2.y) ^ 2

/-- The decidable encoding of `Math.sqrt s > m` for `0 ≤ s`: true iff `m` is
negative or `m^2 < s`.  `sqrtGt_correct` below proves it equivalent to the
real-number comparison against `Real.sqrt`. -/
def sqrtGt (s m : ℚ) : Bool :=
  decide (m < 0) || decide (m ^ 2 < s)

/-- `calculateMaxMovementDistance(timeDelta)` (lines 1613-1616). -/
def calculateMaxMovementDistance (timeDelta : ℚ) : ℚ :=
  maxMovementSpeed * (timeDelta / 1000) * cheatDetection.maxMovementSpeedMultiplier

/-- `hasObstacleCollision(fromPos, toPos)` (lines 1618-1622): the simplified
collision check always reports no collision. -/
def hasObstacleCollision (_fromPos _toPos : Pos) : Bool :=
  false

/-! ## Anti-cheat bookkeeping (lines 1530-1597) -/

/-- One entry of a player's action history (lines 1540-1544); the contextual
`data` payload is carried as an opaque string. -/
structure PlayerAction where
  type : String
  timestamp : ℚ
  data : String
deriving DecidableEq

/-- One recorded violation (lines 1578-1582). -/
structure Violation where
  type : String
  timestamp : ℚ
  details : String
deriving DecidableEq

/-- A player's violation record (line 1574). -/
structure SuspiciousRecord where
  violations : List Violation
  count : Nat
deriving DecidableEq

/-- The action object returned by `flagSuspiciousActivity`
(lines 1588-1596). -/
structure FlagResult where
  action : String
  reason : String
deriving DecidableEq

/-! ## Item system state (lines 1177-1288 and 1647-2033) -/

/-- An `itemTypes` row (lines 1184-1215); the descriptive stat/effect name
arrays are display metadata and carry no logic. -/
structure ItemTypeDef where
  category : String
  stackable : Bool
  maxStack : Nat
deriving DecidableEq

/-- `this.itemTypes` (lines 1184-1215). -/
def itemTypes : String → Option ItemTypeDef
  | "WEAPON" => some ⟨"equipment", false, 1⟩
  | "ARMOR" => some ⟨"equipment", false, 1⟩
  | "CONSUMABLE" => some ⟨"consumable", true, 99⟩
  | "MATERIAL" => some ⟨"material", true, 999⟩
  | "KEY_ITEM" => some ⟨"quest", false, 1⟩
  | _ => none

/-- The optional stat bundle of an item template (lines 1220-1253). -/
structure ItemStats where
  attack : Option ℚ
  defense : Option ℚ
  criticalChance : Option ℚ
  attackSpeed : Option ℚ
  health : Option ℚ
  healthRegen : Option ℚ
deriving DecidableEq

/-- The optional effect bundle of a consumable (lines 1256-1271). -/
structure ItemEffects where
  health : Option ℚ
  mana : Option ℚ
  buff : Option String
  debuff : Option String
deriving DecidableEq

/-- An item template of `this.itemDatabase` (lines 1218-1288). -/
structure ItemTemplate where
  id : String
  name : String
  type : String
  rarity : String
  description : String
  stats : Option ItemStats
  effects : Option ItemEffects
deriving DecidableEq

/-- `this.itemDatabase` (lines 1218-1288). -/
def itemDatabase : String → Option ItemTemplate
  | "iron_sword" => some ⟨"iron_sword", "Iron Sword", "WEAPON", "common",
      "A sturdy iron sword suitable for basic combat.",
      some ⟨some 15, none, some 5, none, none, none⟩, none⟩
  | "steel_dagger" => some ⟨"steel_dagger", "Steel Dagger", "WEAPON", "common",
      "A quick steel dagger for swift strikes.",
      some ⟨some 12, none, some 15, some 1.2, none, none⟩, none⟩
  | "leather_armor" => some ⟨"leather_armor", "Leather Armor", "ARMOR", "common",
      "Basic leather protection for adventurers.",
      some ⟨none, some 8, none, none, some 20, none⟩, none⟩
  | "chain_mail" => some ⟨"chain_mail", "Chain Mail", "ARMOR", "uncommon",
      "Interlocked metal rings providing good protection.",
      some ⟨none, some 15, none, none, some 40, some 1⟩, none⟩
  | "health_potion" => some ⟨"health_potion", "Health Potion", "CONSUMABLE", "common",
      "Restores 50 health points instantly.",
      none, some ⟨some 50, none, none, none⟩⟩
  | "mana_potion" => some ⟨"mana_potion", "Mana Potion", "CONSUMABLE", "common",
      "Restores 30 mana points instantly.",
      none, some ⟨none, some 30, none, none⟩⟩
  | "iron_ore" => some ⟨"iron_ore", "Iron Ore", "MATERIAL", "common",
      "Raw iron ore for crafting weapons and armor.", none, none⟩
  | "magic_crystal" => some ⟨"magic_crystal", "Magic Crystal", "MATERIAL", "rare",
      "A glowing crystal infused with magical energy.", none, none⟩
  | _ => none

/-- A live item instance: template fields spread into the instance, plus
position/quantity and the provenance timestamps added by pickup/drop
(lines 1719-1728, 1802, 1958-1967). -/
structure Item where
  id : String
  templateId : String
  name : String
  type : String
  rarity : String
  description : String
  stats : Option ItemStats
  effects : Option ItemEffects
  position : Pos
  spawnTime : ℚ
  quantity : Nat
  pickedUpAt : Option ℚ
  droppedAt : Option ℚ
  droppedBy : Option String
deriving DecidableEq

/-- A player inventory (lines 1742-1748): slot index to item, plus the
equipped map keyed by equipment slot name. -/
structure Inventory where
  playerId : String
  items : List (Nat × Item)
  equipped : List (String × Item)
  maxSlots : Nat
  createdAt : ℚ
deriving DecidableEq

/-- The mutable state owned by `ServerAuthority`: world items, inventories,
the item-id counter, and the anti-cheat maps (lines 1178-1181 and
1313-1314). -/
structure AuthorityState where
  gameItems : List (String × Item)
  playerInventories : List (String × Inventory)
  itemIdCounter : Nat
  playerActions : List (String × List PlayerAction)
  suspiciousPlayers : List (String × SuspiciousRecord)
deriving DecidableEq

/-- `flagSuspiciousActivity(playerId, violationType, details)`
(lines 1572-1597); `Date.now()` is passed as `now` and the structured
`details` payload is carried as a string. -/
def flagSuspiciousActivity (auth : AuthorityState) (playerId violationType details : String)
    (now : ℚ) : FlagResult × AuthorityState :=
  let rec0 := (alGet auth.suspiciousPlayers playerId).getD ⟨[], 0⟩
  let rec1 : SuspiciousRecord :=
    { violations := rec0.violations ++ [⟨violationType, now, details⟩]
      count := rec0.count + 1 }
  let auth1 := { auth with suspiciousPlayers := alSet auth.suspiciousPlayers playerId rec1 }
  let action : FlagResult :=
    if rec1.count ≥ cheatDetection.autoKickThreshold then
      ⟨"kick", "Repeated cheat violations"⟩
    else if rec1.count ≥ cheatDetection.suspiciousActionThreshold then
      ⟨"flag", "Suspicious activity detected"⟩
    else
      ⟨"warn", violationType⟩
  (action, auth1)

/-- `checkActionFrequency(playerId, actions)` (lines 1558-1567): the rate is
the window length divided by the 10-second window span. -/
def checkActionFrequency (auth : AuthorityState) (playerId : String)
    (actions : List PlayerAction) (now : ℚ) : AuthorityState :=
  let actionsPerSecond : ℚ := (actions.length : ℚ) / 10
  if actionsPerSecond > cheatDetection.maxActionsPerSecond then
    (flagSuspiciousActivity auth playerId "HIGH_ACTION_FREQUENCY" "" now).2
  else auth

/-- `recordPlayerAction(playerId, actionType, data)` (lines 1532-1553):
append, trim to the rolling 10-second window, then run the frequency
check on the trimmed window. -/
def recordPlayerAction (auth : AuthorityState) (playerId actionType data : String)
    (now : ℚ) : AuthorityState :=
  let actions := (alGet auth.playerActions playerId).getD []
  let actions := actions ++ [⟨actionType, now, data⟩]
  let cutoff := now - 10000
  let recentActions := actions.filter fun a => a.timestamp > cutoff
  let auth1 := { auth with playerActions := alSet auth.playerActions playerId recentActions }
  checkActionFrequency auth1 playerId recentActions now

/-! ## Movement validation (lines 1319-1360) -/

/-- The fields `validateMovement` reads off its `playerData` argument:
the last accepted move time and the last known valid position. -/
structure MovePlayerData where
  lastMoveTime : ℚ
  lastValidPosition : Option Pos
deriving DecidableEq

/-- `validateMovement(playerId, fromPos, toPos, timestamp, playerData)`
(lines 1323-1360).  `playerData.lastMoveTime || timestamp` treats a zero (or
missing) recorded time as "no previous move"; `sqrtGt` encodes the
`distance > maxAllowedDistance` comparison on the squared distance. Returns
the authoritative position (`toPos` when accepted, the last valid position
as a correction on a speed/obstacle rejection) or `none` for out-of-bounds,
together with the updated anti-cheat state. -/
def validateMovement (playerId : String) (fromPos toPos : Pos) (timestamp : ℚ)
    (playerData : MovePlayerData) (now : ℚ) (auth : AuthorityState) :
    Option Pos × AuthorityState :=
  if isPositionInBounds toPos = false then
    (none, (flagSuspiciousActivity auth playerId "OUT_OF_BOUNDS" "" now).2)
  else
    let distanceSq := calculateDistanceSq fromPos toPos
    let timeDelta := timestamp -
      (if playerData.lastMoveTime = 0 then timestamp else playerData.lastMoveTime)
    let maxAllowedDistance := calculateMaxMovementDistance timeDelta
    if sqrtGt distanceSq maxAllowedDistance then
      (some (playerData.lastValidPosition.getD fromPos),
        (flagSuspiciousActivity auth playerId "SPEED_HACK" "" now).2)
    else if hasObstacleCollision fromPos toPos then
      (some (playerData.lastValidPosition.getD fromPos),
        (flagSuspiciousActivity auth playerId "WALL_HACK" "" now).2)
    else
      (some toPos, recordPlayerAction auth playerId "MOVEMENT" "" now)

/-! ## Combat validation (lines 1362-1497) -/

/-- The `stats` sub-object of a player's game state (attack/defense/speed). -/
structure PlayerStatsRec where
  attack : ℚ
  defense : ℚ
  speed : ℚ
deriving DecidableEq

/-- The authoritative per-player game state the combat/item code reads and
writes (initialised at gameServer.js lines 122-142).  The source stores a
two-level world/room position; the combat distance check reads flat `x`/`y`
fields, so the model carries the flat position the check expects. -/
structure PlayerGameState where
  position : Pos
  health : ℚ
  maxHealth : ℚ
  inCombat : Bool
  ready : Bool
  alive : Bool
  stats : Option PlayerStatsRec
  lastAttackTime : ℚ
  lastMoveTime : ℚ
  kills : Nat
  lastCombatTime : ℚ
  deathTime : Option ℚ
  killedBy : Option String
  mana : Option ℚ
  maxMana : Option ℚ
deriving DecidableEq

/-- A player connection as seen by `ServerAuthority` (its `gameState.players`
map values): the game state plus the top-level `status` field that
`handlePlayerDeath` sets to `'dead'`. -/
structure PlayerConnState where
  username : String
  matchId : String
  status : String
  gameState : PlayerGameState
deriving DecidableEq

/-- The `gameState.players` map handed to the combat/item validators. -/
def GameState : Type := List (String × PlayerConnState)

/-- `calculateDamage(attacker, target, actionType)` (lines 1422-1441):
base 15 plus attack minus defense, floored at 1, plus the random jitter
`Math.floor(Math.random()*5) - 2` (the draw `r` ranges over `0..4`),
clamped to `[minDamagePerHit, maxDamagePerHit]`.  The `?.  || 10` default
treats a missing or zero stat as the default value. -/
def calculateDamage (attacker target : PlayerConnState) (r : Int) : ℚ :=
  let baseDamage : ℚ := 15
  let attackPower :=
    match attacker.gameState.stats with
    | some s => if s.attack = 0 then 10 else s.attack
    | none => 10
  let defense :=
    match target.gameState.stats with
    | some s => if s.defense = 0 then 5 else s.defense
    | none => 5
  let finalDamage := max 1 (baseDamage + attackPower - defense)
  let finalDamage := finalDamage + ((r : ℚ) - 2)
  max combatRules.minDamagePerHit (min combatRules.maxDamagePerHit finalDamage)

/-- `handlePlayerDeath(deadPlayerId, killerId, timestamp, gameState)`
(lines 1481-1497): clears the alive flag, stamps the death, and increments
the killer's kill counter. -/
def handlePlayerDeath (deadPlayerId killerId : String) (timestamp : ℚ)
    (gs : GameState) : GameState :=
  let gs1 := alModify gs deadPlayerId fun p =>
    { p with status := "dead",
             gameState := { p.gameState with
                              alive := false
                              deathTime := some timestamp
                              killedBy := some killerId } }
  alModify gs1 killerId fun k =>
    { k with gameState := { k.gameState with kills := k.gameState.kills + 1 } }

/-- The combat outcome object (lines 1467-1475). -/
structure CombatResult where
  attackerId : String
  targetId : String
  damage : ℚ
  oldHealth : ℚ
  newHealth : ℚ
  isDead : Bool
  timestamp : ℚ
deriving DecidableEq

/-- `applyCombatDamage(attackerId, targetId, damage, timestamp, gameState)`
(lines 1446-1476).  The attacker's combat timestamps are set first, then the
target's health is floored at 0; the target's old health is read after the
attacker update (the attacker update never touches health, so self-attacks
behave as in the aliased source).  The caller has already checked that both
parties exist; `getD 0` totalises the read. -/
def applyCombatDamage (attackerId targetId : String) (damage timestamp : ℚ)
    (gs : GameState) : CombatResult × GameState :=
  let gs1 := alModify gs attackerId fun a =>
    { a with gameState := { a.gameState with
                              lastAttackTime := timestamp
                              inCombat := true
                              lastCombatTime := timestamp } }
  let oldHealth := ((alGet gs1 targetId).map fun t => t.gameState.health).getD 0
  let newHealth := max 0 (oldHealth - damage)
  let gs2 := alModify gs1 targetId fun t =>
    { t with gameState := { t.gameState with
                              health := newHealth
                              inCombat := true
                              lastCombatTime := timestamp } }
  let gs3 := if newHealth ≤ 0 then handlePlayerDeath targetId attackerId timestamp gs2 else gs2
  (⟨attackerId, targetId, damage, oldHealth, newHealth, decide (newHealth ≤ 0), timestamp⟩, gs3)

/-- `validateCombatAction(attackerId, targetId, actionType, timestamp,
gameState)` (lines 1366-1417): missing parties, a dead attacker, the 1500 ms
cooldown (`lastAttackTime || 0` is the identity on the numeric field), and
the 50-unit range each reject with `null`; otherwise the server-side damage
is applied.  `r` is the damage jitter draw and `now` is `Date.now()` as seen
by the anti-cheat bookkeeping. -/
def validateCombatAction (attackerId targetId actionType : String) (timestamp : ℚ)
    (r : Int) (now : ℚ) (gs : GameState) (auth : AuthorityState) :
    Option CombatResult × GameState × AuthorityState :=
  match alGet gs attackerId, alGet gs targetId with
  | some attacker, some target =>
    if attacker.gameState.health ≤ 0 then
      (none, gs, (flagSuspiciousActivity auth attackerId "DEAD_PLAYER_ACTION" "" now).2)
    else
      let lastAttack := attacker.gameState.lastAttackTime
      let timeSinceLastAttack := timestamp - lastAttack
      if timeSinceLastAttack < combatRules.attackCooldown then
        (none, gs, (flagSuspiciousActivity auth attackerId "ATTACK_SPEED_HACK" "" now).2)
      else if sqrtGt (calculateDistanceSq attacker.gameState.position target.gameState.position)
          combatRules.maxAttackRange then
        (none, gs, (flagSuspiciousActivity auth attackerId "RANGE_HACK" "" now).2)
      else
        let damage := calculateDamage attacker target r
        let applied := applyCombatDamage attackerId targetId damage timestamp gs
        let a1 := recordPlayerAction auth attackerId "COMBAT" actionType now
        (some applied.1, applied.2, a1)
  | _, _ =>
    (none, gs, (flagSuspiciousActivity auth attackerId "INVALID_TARGET" "" now).2)

/-! ## Item actions (lines 1499-1527 and 1629-2033) -/

/-- The effects summary built by `applyItemEffects` (lines 1857-1885). -/
structure AppliedEffects where
  healthRestored : Option ℚ
  manaRestored : Option ℚ
  buff : Option String
deriving DecidableEq

/-- `applyItemEffects(player, item)` (lines 1857-1885): bounded health and
mana restoration (`if (item.effects.health)` is falsy for a missing or zero
effect), returning the applied deltas and the mutated player. -/
def applyItemEffects (player : PlayerConnState) (item : Item) :
    AppliedEffects × PlayerConnState :=
  match item.effects with
  | none => (⟨none, none, none⟩, player)
  | some eff =>
    let (healthRestored, player1) :=
      match eff.health with
      | some h =>
        if h = 0 then (none, player)
        else
          let oldHealth := player.gameState.health
          let maxHealth := combatRules.maxHealth
          let newHealth := min maxHealth (oldHealth + h)
          (some (newHealth - oldHealth),
            { player with gameState := { player.gameState with health := newHealth } })
      | none => (none, player)
    let (manaRestored, player2) :=
      match eff.mana with
      | some mn =>
        if mn = 0 then (none, player1)
        else
          let oldMana := jsOrQ player1.gameState.mana 100
          let maxMana := jsOrQ player1.gameState.maxMana 100
          let newMana := min maxMana (oldMana + mn)
          (some (newMana - oldMana),
            { player1 with gameState := { player1.gameState with mana := some newMana } })
      | none => (none, player1)
    (⟨healthRestored, manaRestored, eff.buff⟩, player2)
where
  /-- JS `opt || 100` on the optional mana fields. -/
  jsOrQ (x : Option ℚ) (y : ℚ) : ℚ :=
    match x with
    | some v => if v = 0 then y else v
    | none => y

/-- The structured result of an item action (the objects returned by
lines 1757-1978): success flag, failure reason, performed action, the item
involved, the inventory slot index or equipment slot name touched, the
previously equipped item, the applied effects, and the action timestamp. -/
structure ItemOutcome where
  success : Bool
  reason : Option String
  action : Option String
  item : Option Item
  slotIndex : Option Nat
  equipSlot : Option String
  previousItem : Option Item
  effectsApplied : Option AppliedEffects
  timestamp : Option ℚ
deriving DecidableEq

/-- A failed item outcome carrying only a reason. -/
def itemFailure (reason : String) : ItemOutcome :=
  ⟨false, some reason, none, none, none, none, none, none, none⟩

/-- `initializePlayerInventory(playerId)` (lines 1737-1754); `Date.now()`
is passed as `now`. -/
def initializePlayerInventory (auth : AuthorityState) (playerId : String) (now : ℚ) :
    Inventory × AuthorityState :=
  match alGet auth.playerInventories playerId with
  | some inv => (inv, auth)
  | none =>
    let inv : Inventory := ⟨playerId, [], [], 20, now⟩
    (inv, { auth with playerInventories := alSet auth.playerInventories playerId inv })

/-- `findItemInInventory(playerId, templateId)` (lines 1981-1991): the first
slot holding an item of the template, in insertion order. -/
def findItemInInventory (auth : AuthorityState) (playerId templateId : String) :
    Option Nat :=
  match alGet auth.playerInventories playerId with
  | none => none
  | some inv => (inv.items.find? fun si => si.2.templateId = templateId).map fun si => si.1

/-- `findItemSlotInInventory(playerId, itemId)` (lines 1993-2003). -/
def findItemSlotInInventory (auth : AuthorityState) (playerId itemId : String) :
    Option Nat :=
  match alGet auth.playerInventories playerId with
  | none => none
  | some inv => (inv.items.find? fun si => si.2.id = itemId).map fun si => si.1

/-- The non-stacking tail of `pickupItem` (lines 1788-1813): first empty
slot, else failure. -/
def pickupToNewSlot (auth : AuthorityState) (inventory : Inventory)
    (playerId : String) (item : Item) (timestamp : ℚ) : ItemOutcome × AuthorityState :=
  match (List.range inventory.maxSlots).find? fun i => (alGet inventory.items i).isNone with
  | none => (itemFailure "No empty slots", auth)
  | some emptySlot =>
    let inventory' := { inventory with
      items := alSet inventory.items emptySlot { item with pickedUpAt := some timestamp } }
    let auth' := { auth with
      playerInventories := alSet auth.playerInventories playerId inventory'
      gameItems := alErase auth.gameItems item.id }
    (⟨true, none, some "picked_up", some item, some emptySlot, none, none, none, none⟩, auth')

/-- `pickupItem(playerId, item, timestamp)` (lines 1757-1813): capacity
check, stacking into an existing slot for stackable types when the combined
quantity fits the stack cap, else a fresh slot.  (An item whose `type` is
outside `itemTypes` would fault in the source; every database item carries
one of the five types.) -/
def pickupItem (auth : AuthorityState) (playerId : String) (item : Item)
    (timestamp now : ℚ) : ItemOutcome × AuthorityState :=
  let (inventory, auth) := initializePlayerInventory auth playerId now
  if inventory.items.length ≥ inventory.maxSlots then
    (itemFailure "Inventory full", auth)
  else
    let typeDef := (itemTypes item.type).getD ⟨"", false, 1⟩
    if typeDef.stackable then
      match findItemInInventory auth playerId item.templateId with
      | some existingSlot =>
        match alGet inventory.items existingSlot with
        | some existingItem =>
          let newQuantity := existingItem.quantity + item.quantity
          if newQuantity ≤ typeDef.maxStack then
            let existingItem' := { existingItem with quantity := newQuantity }
            let inventory' := { inventory with
              items := alSet inventory.items existingSlot existingItem' }
            let auth' := { auth with
              playerInventories := alSet auth.playerInventories playerId inventory'
              gameItems := alErase auth.gameItems item.id }
            (⟨true, none, some "stacked", some existingItem', some existingSlot,
               none, none, none, none⟩, auth')
          else pickupToNewSlot auth inventory playerId item timestamp
        | none => pickupToNewSlot auth inventory playerId item timestamp
      | none => pickupToNewSlot auth inventory playerId item timestamp
    else pickupToNewSlot auth inventory playerId item timestamp

/-- `useItem(playerId, item, timestamp, gameState)` (lines 1816-1854):
consumables only; applies the effects to the player, decrements the shared
item instance, and removes an emptied stack from the inventory. -/
def useItem (auth : AuthorityState) (playerId : String) (item : Item)
    (timestamp : ℚ) (gs : GameState) : ItemOutcome × GameState × AuthorityState :=
  match alGet auth.playerInventories playerId with
  | none => (itemFailure "No inventory", gs, auth)
  | some _ =>
    match alGet gs playerId with
    | none => (itemFailure "Player not found", gs, auth)
    | some player =>
      if item.type ≠ "CONSUMABLE" then (itemFailure "Item not usable", gs, auth)
      else
        let (effects, player') := applyItemEffects player item
        let gs' := alSet gs playerId player'
        let newQuantity := item.quantity - 1
        let item' := { item with quantity := newQuantity }
        let auth1 := { auth with
          gameItems := alModify auth.gameItems item.id fun it =>
            { it with quantity := newQuantity } }
        let auth2 :=
          if newQuantity = 0 then
            match findItemSlotInInventory auth1 playerId item.id with
            | some slot =>
              let removeSlot := fun inv : Inventory => { inv with items := alErase inv.items slot }
              { auth1 with playerInventories := alModify auth1.playerInventories playerId removeSlot }
            | none => auth1
          else auth1
        (⟨true, none, some "consumed", some item', none, none, none, some effects,
           some timestamp⟩, gs', auth2)

/-- `getEquipmentSlot(item)` (lines 2005-2014). -/
def getEquipmentSlot (item : Item) : String :=
  match item.type with
  | "WEAPON" => "weapon"
  | "ARMOR" => "chest"
  | _ => "misc"

/-- `unequipItem(playerId, item, timestamp)` (lines 1923-1940). -/
def unequipItem (auth : AuthorityState) (playerId : String) (item : Item) :
    ItemOutcome × AuthorityState :=
  match alGet auth.playerInventories playerId with
  | none => (itemFailure "No inventory", auth)
  | some inv =>
    let equipSlot := getEquipmentSlot item
    let inv' := { inv with equipped := alErase inv.equipped equipSlot }
    let auth' := { auth with playerInventories := alSet auth.playerInventories playerId inv' }
    (⟨true, none, some "unequipped", some item, none, some equipSlot, none, none, none⟩, auth')

/-- `equipItem(playerId, item, timestamp)` (lines 1888-1920): weapon/armor
only; auto-unequips the current occupant of the slot. -/
def equipItem (auth : AuthorityState) (playerId : String) (item : Item) :
    ItemOutcome × AuthorityState :=
  match alGet auth.playerInventories playerId with
  | none => (itemFailure "No inventory", auth)
  | some inventory =>
    if item.type ≠ "WEAPON" ∧ item.type ≠ "ARMOR" then
      (itemFailure "Item not equippable", auth)
    else
      let equipSlot := getEquipmentSlot item
      let currentlyEquipped := alGet inventory.equipped equipSlot
      let auth1 :=
        match currentlyEquipped with
        | some cur => (unequipItem auth playerId cur).2
        | none => auth
      let inv1 := (alGet auth1.playerInventories playerId).getD inventory
      let inv2 := { inv1 with equipped := alSet inv1.equipped equipSlot item }
      let auth2 := { auth1 with playerInventories := alSet auth1.playerInventories playerId inv2 }
      (⟨true, none, some "equipped", some item, none, some equipSlot,
         currentlyEquipped, none, none⟩, auth2)

/-- `dropItem(playerId, item, timestamp, gameState)` (lines 1943-1978): the
item leaves the inventory and reappears in the world near the player, with a
fresh id built from `Date.now()`.  `r1`, `r2` are the two `Math.random()`
draws for the position scatter. -/
def dropItem (auth : AuthorityState) (playerId : String) (item : Item)
    (timestamp : ℚ) (gs : GameState) (r1 r2 now : ℚ) : ItemOutcome × AuthorityState :=
  match alGet auth.playerInventories playerId, alGet gs playerId with
  | some _, some player =>
    let auth1 :=
      match findItemSlotInInventory auth playerId item.id with
      | some slot =>
        let removeSlot := fun inv : Inventory => { inv with items := alErase inv.items slot }
        { auth with playerInventories := alModify auth.playerInventories playerId removeSlot }
      | none => auth
    let worldItem := { item with
      id := "dropped_" ++ item.id ++ "_" ++ toString now
      position := ⟨player.gameState.position.x + (r1 - 0.5) * 10,
                   player.gameState.position.y + (r2 - 0.5) * 10⟩
      droppedAt := some timestamp
      droppedBy := some playerId }
    let auth2 := { auth1 with gameItems := alSet auth1.gameItems worldItem.id worldItem }
    (⟨true, none, some "dropped", some worldItem, none, none, none, none, none⟩, auth2)
  | _, _ => (itemFailure "Player or inventory not found", auth)

/-- `findItemById(itemId, gameState)` (lines 1624-1627). -/
def findItemById (auth : AuthorityState) (itemId : String) : Option Item :=
  alGet auth.gameItems itemId

/-- `processItemAction(playerId, item, actionType, timestamp, gameState)`
(lines 1629-1645): dispatch over the action kind. -/
def processItemAction (playerId : String) (item : Item) (actionType : String)
    (timestamp : ℚ) (gs : GameState) (auth : AuthorityState) (r1 r2 now : ℚ) :
    ItemOutcome × GameState × AuthorityState :=
  match actionType with
  | "pickup" =>
    let (o, a) := pickupItem auth playerId item timestamp now
    (o, gs, a)
  | "use" => useItem auth playerId item timestamp gs
  | "drop" =>
    let (o, a) := dropItem auth playerId item timestamp gs r1 r2 now
    (o, gs, a)
  | "equip" =>
    let (o, a) := equipItem auth playerId item
    (o, gs, a)
  | "unequip" =>
    let (o, a) := unequipItem auth playerId item
    (o, gs, a)
  | _ => (itemFailure "Unknown action", gs, auth)

/-- `validateItemAction(playerId, itemId, actionType, timestamp, gameState)`
(lines 1502-1527): rejects with `null` for a missing or dead actor, an
unknown item id, or an actor-item distance beyond the 30-unit pickup range;
otherwise the action is processed server-side. -/
def validateItemAction (playerId itemId actionType : String) (timestamp : ℚ)
    (gs : GameState) (auth : AuthorityState) (r1 r2 now : ℚ) :
    Option ItemOutcome × GameState × AuthorityState :=
  match alGet gs playerId with
  | none => (none, gs, auth)
  | some player =>
    if player.gameState.health ≤ 0 then
      (none, gs, (flagSuspiciousActivity auth playerId "DEAD_PLAYER_ITEM_USE" "" now).2)
    else
      match findItemById auth itemId with
      | none =>
        (none, gs, (flagSuspiciousActivity auth playerId "INVALID_ITEM" "" now).2)
      | some item =>
        if sqrtGt (calculateDistanceSq player.gameState.position item.position) 30 then
          (none, gs, (flagSuspiciousActivity auth playerId "ITEM_RANGE_HACK" "" now).2)
        else
          let processed := processItemAction playerId item actionType timestamp gs auth r1 r2 now
          (some processed.1, processed.2.1, processed.2.2)

end ServerAuthority

namespace MatchManager

/-- `this.MAP_SEED` (line 17). -/
def MAP_SEED : Int := 12345

/-- `generateMatchSeed()` (lines 110-112): `MAP_SEED` plus the random draw
`Math.floor(Math.random() * 1000000)`, passed explicitly. -/
def generateMatchSeed (randDraw : Int) : Int :=
  MAP_SEED + randDraw

/-- `startMatch(matchId)` (lines 555-571) over the manager's match map. -/
def startMatch (ms : List (String × MMMatchState)) (matchId : String) (now : ℚ) :
    Bool × List (String × MMMatchState) :=
  match alGet ms matchId with
  | none => (false, ms)
  | some m => (true, alSet ms matchId (startMatchM m now))

/-- `updatePlayerPosition(matchId, playerId, position)` (lines 837-862) over
the manager's match map. -/
def updatePlayerPosition (ms : List (String × MMMatchState)) (matchId playerId : String)
    (position : WorldRoomPos) (now : ℚ) : Bool × List (String × MMMatchState) :=
  match alGet ms matchId with
  | none => (false, ms)
  | some m =>
    let (ok, m') := updatePlayerPositionM m playerId position now
    (ok, alSet ms matchId m')

end MatchManager

namespace GameServer

/-! ## GameServer: session registry and connection lifecycle
(src/backend-essential/gameServer.js) -/

/-- The authoritative per-connection game state initialised at
gameServer.js lines 122-142, with the two-level world/room position. -/
structure GSGameState where
  position : MatchManager.WorldRoomPos
  health : ℚ
  maxHealth : ℚ
  inCombat : Bool
  ready : Bool
  alive : Bool
  stats : ServerAuthority.PlayerStatsRec
  lastAttackTime : ℚ
  lastMoveTime : ℚ
  lastValidPosition : MatchManager.WorldRoomPos
  kills : Nat
  lastCombatTime : ℚ
deriving DecidableEq

/-- A player connection (lines 112-143); the raw websocket handle is
transport, not state. -/
structure PlayerConnection where
  playerId : String
  username : String
  matchId : String
  lastPing : ℚ
  status : String
  isAlive : Bool
  gameState : GSGameState
deriving DecidableEq

/-- The legacy match record built by `initializeMatch` (lines 291-303).
`initializeMatch` has no caller, so `this.matches` never gains an entry in
the modelled flows; the record is kept for the `matches.delete` call in
`handlePlayerDisconnection`. -/
structure LegacyMatchState where
  id : String
  status : String
  roundNumber : Nat
  createdAt : ℚ
deriving DecidableEq

/-- The mutable server registries (lines 22-24: `this.players`,
`this.playersByMatch`, and the legacy `this.matches`, here `matchesMap`)
plus the `MatchManager`'s match map (`this.matchManager.matches`). -/
structure GameServerState where
  players : List (String × PlayerConnection)
  playersByMatch : List (String × List String)
  matchesMap : List (String × LegacyMatchState)
  matchManagerMatches : List (String × MatchManager.MMMatchState)
deriving DecidableEq

/-- `handleNewConnection(ws, req)` (lines 96-184), state effects only:
registers the session, adds the player to the match's id set, and either
creates-and-starts a fresh `MatchManager` match — `createNewMatch`
(lines 306-323) lets `MatchManager.createMatch` allocate its own match id
(`freshMatchId` here, `uuidv4()` in the source) and seed draw, and starts
that generated id — or, when `getMatchState(matchId)` finds a match under
the connection's id, registers the player via `updatePlayerPosition`.
Finally `updatePlayerStatus(playerId, 'connected')` (lines 701-716) stamps
the status.  Broadcasts carry no registry state and are not modelled. -/
def handleNewConnection (s : GameServerState) (matchId playerId username : String)
    (freshMatchId : String) (seedDraw : Int) (now : ℚ) : GameServerState :=
  let initialPos : MatchManager.WorldRoomPos := ⟨0, 0, 3, 4⟩
  let playerConnection : PlayerConnection :=
    { playerId := playerId
      username := username
      matchId := matchId
      lastPing := now
      status := "connecting"
      isAlive := true
      gameState :=
        { position := initialPos
          health := 100
          maxHealth := 100
          inCombat := false
          ready := false
          alive := true
          stats := ⟨10, 5, 5⟩
          lastAttackTime := 0
          lastMoveTime := now
          lastValidPosition := initialPos
          kills := 0
          lastCombatTime := 0 } }
  let players1 := alSet s.players playerId playerConnection
  let cur := (alGet s.playersByMatch matchId).getD []
  let pbm1 := alSet s.playersByMatch matchId (if playerId ∈ cur then cur else cur ++ [playerId])
  let mm1 :=
    if (alGet s.matchManagerMatches matchId).isNone then
      let m := MatchManager.createMatch [(playerId, username)] freshMatchId
        (MatchManager.generateMatchSeed seedDraw) now
      let withM := alSet s.matchManagerMatches freshMatchId m
      (MatchManager.startMatch withM freshMatchId now).2
    else
      (MatchManager.updatePlayerPosition s.matchManagerMatches matchId playerId
        playerConnection.gameState.position now).2
  let players2 := alModify players1 playerId fun c =>
    { c with status := "connected", lastPing := now }
  { players := players2
    playersByMatch := pbm1
    matchesMap := s.matchesMap
    matchManagerMatches := mm1 }

/-- `handlePlayerDisconnection(playerId)` (lines 266-286): removes the
session, removes the player id from the match's id set, and — when the set
becomes empty — deletes the `playersByMatch` entry and the legacy
`this.matches` entry.  The `MatchManager` match map is not touched. -/
def handlePlayerDisconnection (s : GameServerState) (playerId : String) : GameServerState :=
  match alGet s.players playerId with
  | none => s
  | some playerConnection =>
    let players' := alErase s.players playerId
    match alGet s.playersByMatch playerConnection.matchId with
    | none => { s with players := players' }
    | some ids =>
      let ids' := ids.filter fun pid => pid ≠ playerId
      if ids'.isEmpty then
        { s with
            players := players'
            playersByMatch := alErase s.playersByMatch playerConnection.matchId
            matchesMap := alErase s.matchesMap playerConnection.matchId }
      else
        { s with
            players := players'
            playersByMatch := alSet s.playersByMatch playerConnection.matchId ids' }

end GameServer

/-! ## Concrete states used by the claim checks -/

/-- A fresh `ServerAuthority` state: no items, no inventories, item counter 1
(lines 1178-1181), empty anti-cheat maps. -/
def auth0 : ServerAuthority.AuthorityState := ⟨[], [], 1, [], []⟩

/-- A live player connection at a flat position, as the combat validator
reads it: full health, never attacked, default stats. -/
def mkConn (username : String) (pos : ServerAuthority.Pos) : ServerAuthority.PlayerConnState :=
  { username := username
    matchId := "m"
    status := "connected"
    gameState :=
      { position := pos
        health := 100
        maxHealth := 100
        inCombat := false
        ready := false
        alive := true
        stats := some ⟨10, 5, 5⟩
        lastAttackTime := 0
        lastMoveTime := 0
        kills := 0
        lastCombatTime := 0
        deathTime := none
        killedBy := none
        mana := none
        maxMana := none } }

/-- Two live players 5 units apart. -/
def gsC3 : ServerAuthority.GameState :=
  [("A", mkConn "A" ⟨0, 0⟩), ("B", mkConn "B" ⟨3, 4⟩)]

/-- A dead player connection: health 0, alive flag down, status dead. -/
def deadB : ServerAuthority.PlayerConnState :=
  let c := mkConn "B" ⟨3, 4⟩
  { c with status := "dead", gameState := { c.gameState with health := 0, alive := false } }

/-- A live attacker and an already-dead target 5 units apart. -/
def gsDeadTarget : ServerAuthority.GameState :=
  [("A", mkConn "A" ⟨0, 0⟩), ("B", deadB)]

/-- A freshly created match (seed 12345, empty room cache) for concrete
room-generation checks. -/
def mC4 : MatchManager.MMMatchState :=
  MatchManager.createMatch [("p1", "alice")] "m1" 12345 0

/-- A concrete health-potion instance (template `health_potion`, +50
health) lying at the origin. -/
def potionC5 : ServerAuthority.Item :=
  { id := "health_potion_1"
    templateId := "health_potion"
    name := "Health Potion"
    type := "CONSUMABLE"
    rarity := "common"
    description := "Restores 50 health points instantly."
    stats := none
    effects := some ⟨some 50, none, none, none⟩
    position := ⟨0, 0⟩
    spawnTime := 0
    quantity := 1
    pickedUpAt := none
    droppedAt := none
    droppedBy := none }

/-- Twenty movement actions recorded for one player within one second
(timestamps 0, 50, ..., 950 ms). -/
def authC7 : ServerAuthority.AuthorityState :=
  (List.range 20).foldl
    (fun a i => ServerAuthority.recordPlayerAction a "P1" "MOVEMENT" "" (50 * (i : ℚ))) auth0

/-- An authority state whose action history already holds one hundred
movement actions within five seconds (timestamps 0, 50, ..., 4950 ms). -/
def authC7b : ServerAuthority.AuthorityState :=
  ⟨[], [], 1,
    [("P1", (List.range 100).map fun i =>
      (⟨"MOVEMENT", 50 * (i : ℚ), ""⟩ : ServerAuthority.PlayerAction))], []⟩

/-- The rolling 10-second window as it stands after appending one action at
time `now` — the list `recordPlayerAction` stores and hands to the frequency
check. -/
def recentWindow (auth : ServerAuthority.AuthorityState)
    (playerId actionType data : String) (now : ℚ) : List ServerAuthority.PlayerAction :=
  (((alGet auth.playerActions playerId).getD []) ++
      [(⟨actionType, now, data⟩ : ServerAuthority.PlayerAction)]).filter
    fun a => a.timestamp > now - 10000

/-- The empty game server state. -/
def gsrv0 : GameServer.GameServerState := ⟨[], [], [], []⟩

/-- One client (player `p1`, requesting match id `lobby`) connects; the
`MatchManager` allocates the fresh match id `m1` for it. -/
def gsrv1 : GameServer.GameServerState :=
  GameServer.handleNewConnection gsrv0 "lobby" "p1" "alice" "m1" 0 0

/-- That client then disconnects. -/
def gsrv2 : GameServer.GameServerState :=
  GameServer.handlePlayerDisconnection gsrv1 "p1"

/-- A two-player match (A and B) in which A damages B twice and then kills
B at t=100000: A ends with 1 kill, B dead with 1 death. -/
def mC9 : MatchManager.MMMatchState :=
  let m0 := MatchManager.startMatchM
    (MatchManager.createMatch [("A", "alice"), ("B", "bob")] "m9" 12345 0) 0
  let m1 := (MatchManager.recordPlayerDamage m0 "A" "B" 60).2
  let m2 := (MatchManager.recordPlayerDamage m1 "A" "B" 50).2
  (MatchManager.recordPlayerKill m2 "A" "B" 100000).2

/-! ## Association-list lemmas -/

section AListLemmas

variable {κ : Type} {α : Type} [DecidableEq κ]

theorem alGet_alSet_self (l : List (κ × α)) (k : κ) (v : α) :
    alGet (alSet l k v) k = some v := by
  induction l with
  | nil => simp [alSet, alGet]
  | cons p t ih =>
    obtain ⟨k', v'⟩ := p
    by_cases h : k' = k
    · simp [alSet, h, alGet]
    · simp [alSet, h, alGet, Ne.symm h, ih]

theorem alGet_alSet_ne (l : List (κ × α)) (k k' : κ) (v : α) (h : k' ≠ k) :
    alGet (alSet l k v) k' = alGet l k' := by
  induction l with
  | nil => simp [alSet, alGet, h]
  | cons p t ih =>
    obtain ⟨k₀, v₀⟩ := p
    by_cases h0 : k₀ = k
    · subst h0
      simp [alSet, alGet, h]
    · by_cases h1 : k' = k₀
      · simp [alSet, alGet, h0, h1, Ne.symm h0]
      · simp [alSet, alGet, h0, h1, Ne.symm h0, ih]

theorem alGet_alModify_self (l : List (κ × α)) (k : κ) (f : α → α) :
    alGet (alModify l k f) k = (alGet l k).map f := by
  induction l with
  | nil => simp [alModify, alGet]
  | cons p t ih =>
    obtain ⟨k₀, v₀⟩ := p
    by_cases h : k₀ = k
    · subst h
      simp [alModify, alGet]
    · simp [alModify, alGet, h, Ne.symm h, ih]

theorem alGet_alModify_ne (l : List (κ × α)) (k k' : κ) (f : α → α) (h : k' ≠ k) :
    alGet (alModify l k f) k' = alGet l k' := by
  induction l with
  | nil => simp [alModify, alGet]
  | cons p t ih =>
    obtain ⟨k₀, v₀⟩ := p
    by_cases h0 : k₀ = k
    · subst h0
      simp [alModify, alGet, h, ih]
    · by_cases h1 : k' = k₀
      · simp [alModify, alGet, h0, h1, ih]
      · simp [alModify, alGet, h0, h1, ih]

theorem alGet_alModify (l : List (κ × α)) (k k' : κ) (f : α → α) :
    alGet (alModify l k f) k' =
      if k' = k then (alGet l k).map f else alGet l k' := by
  by_cases h : k' = k
  · subst h
    simp [alGet_alModify_self]
  · simp [h, alGet_alModify_ne l k k' f h]

end AListLemmas

/-! ## The square-root comparison encoding -/

namespace ServerAuthority

/-- `sqrtGt s m` decides exactly the comparison `Math.sqrt s > m` that the
source performs on the squared distance `s`. -/
theorem sqrtGt_correct (s m : ℚ) :
    sqrtGt s m = true ↔ (m : ℝ) < Real.sqrt (s : ℝ) := by
  unfold sqrtGt
  by_cases hm : m < 0
  · have h1 : (m : ℝ) < 0 := by exact_mod_cast hm
    have h2 : (m : ℝ) < Real.sqrt (s : ℝ) := lt_of_lt_of_le h1 (Real.sqrt_nonneg _)
    simp [hm, h2]
  · have hm' : (0 : ℝ) ≤ (m : ℝ) := by exact_mod_cast not_lt.mp hm
    rw [Real.lt_sqrt hm']
    constructor
    · intro h
      simp only [hm, decide_False, Bool.false_or, decide_eq_true_eq] at h
      exact_mod_cast h
    · intro h
      have h' : m ^ 2 < s := by exact_mod_cast h
      simp [hm, h']

end ServerAuthority

/-! ## Claim theorems -/

/-- C1: for every match map and world coordinate, `getTerrainType` is
deterministic and pure: whenever every cached entry agrees with the
landmark-or-hash derivation, the returned terrain equals that derivation,
the same call on the match with its terrain cache cleared returns the same
terrain, and the updated cache again only holds derived values. -/
theorem getTerrainType_deterministic_c1 (m : MatchManager.WorldMap) (x y : Int)
    (hinv : ∀ k v, alGet m.terrainCache k = some v →
      v = MatchManager.derivedTerrain m.landmarks m.seed k.1 k.2) :
    (MatchManager.getTerrainType m x y).1 =
      MatchManager.derivedTerrain m.landmarks m.seed x y ∧
    (MatchManager.getTerrainType { m with terrainCache := [] } x y).1 =
      MatchManager.derivedTerrain m.landmarks m.seed x y ∧
    ∀ k v, alGet (MatchManager.getTerrainType m x y).2.terrainCache k = some v →
      v = MatchManager.derivedTerrain m.landmarks m.seed k.1 k.2 := by
  have hempty : (MatchManager.getTerrainType { m with terrainCache := [] } x y).1 =
      MatchManager.derivedTerrain m.landmarks m.seed x y := by
    cases hl : alGet m.landmarks (x, y) with
    | some lm => simp [MatchManager.getTerrainType, MatchManager.derivedTerrain, alGet, hl]
    | none => simp [MatchManager.getTerrainType, MatchManager.derivedTerrain, alGet, hl]
  cases hc : alGet m.terrainCache (x, y) with
  | some t =>
    refine ⟨?_, hempty, ?_⟩
    · simp only [MatchManager.getTerrainType, hc]
      exact hinv (x, y) t hc
    · simp only [MatchManager.getTerrainType, hc]
      exact hinv
  | none =>
    cases hl : alGet m.landmarks (x, y) with
    | some lm =>
      refine ⟨?_, hempty, ?_⟩
      · simp [MatchManager.getTerrainType, MatchManager.derivedTerrain, hc, hl]
      · simp only [MatchManager.getTerrainType, hc, hl]
        intro k v h
        by_cases hk : k = (x, y)
        · subst hk
          rw [alGet_alSet_self] at h
          cases h
          simp [MatchManager.derivedTerrain, hl]
        · rw [alGet_alSet_ne _ _ _ _ hk] at h
          exact hinv k v h
    | none =>
      refine ⟨?_, hempty, ?_⟩
      · simp [MatchManager.getTerrainType, MatchManager.derivedTerrain, hc, hl]
      · simp only [MatchManager.getTerrainType, hc, hl]
        intro k v h
        by_cases hk : k = (x, y)
        · subst hk
          rw [alGet_alSet_self] at h
          cases h
          simp [MatchManager.derivedTerrain, hl]
        · rw [alGet_alSet_ne _ _ _ _ hk] at h
          exact hinv k v h

/-- Witness for C1: the fresh server map with seed 12345 satisfies the cache
invariant vacuously, and the terrain at `(1, 2)` both equals the derivation
and concretely evaluates to `"forest"`. -/
theorem getTerrainType_deterministic_c1_w :
    (MatchManager.getTerrainType (MatchManager.generateServerMap 12345) 1 2).1 =
      MatchManager.derivedTerrain (MatchManager.generateServerMap 12345).landmarks
        (MatchManager.generateServerMap 12345).seed 1 2 ∧
    (MatchManager.getTerrainType (MatchManager.generateServerMap 12345) 1 2).1 = "forest" :=
  ⟨(getTerrainType_deterministic_c1 (MatchManager.generateServerMap 12345) 1 2
      (by intro k v h; simp [MatchManager.generateServerMap, alGet] at h)).1,
   by with_unfolding_all rfl⟩

/-- C2 counterexample: with the stored last-valid position equal to the
requested position (from `(0,0)` to `(3,4)` with zero elapsed time, so the
distance 5 exceeds the bound 0), `validateMovement` takes the speed-hack
rejection path (one `SPEED_HACK` violation is recorded) and yet returns
exactly the client's requested position `(3,4)` — contradicting "never the
client's requested position". -/
theorem validateMovement_correction_c2_cx :
    (ServerAuthority.validateMovement "P1" ⟨0, 0⟩ ⟨3, 4⟩ 1000 ⟨1000, some ⟨3, 4⟩⟩ 1000 auth0).1 =
      some ⟨3, 4⟩ ∧
    ((alGet (ServerAuthority.validateMovement "P1" ⟨0, 0⟩ ⟨3, 4⟩ 1000 ⟨1000, some ⟨3, 4⟩⟩ 1000
        auth0).2.suspiciousPlayers "P1").map fun r => (r.count, r.violations.map fun v => v.type)) =
      some (1, ["SPEED_HACK"]) :=
  ⟨by with_unfolding_all rfl, by with_unfolding_all rfl⟩

/-- C2 (amended): a movement request to an in-bounds position whose distance
from the from-position exceeds `maxMovementSpeed x elapsed x 2.0` (elapsed
taken from the caller timestamp and the recorded last move time) is rejected:
a violation is recorded for the player and the returned correction is the
last known valid position (falling back to the from-position) — which
differs from the requested position exactly when that stored position does. -/
theorem validateMovement_speed_reject_c2 (playerId : String)
    (fromPos toPos : ServerAuthority.Pos) (timestamp now : ℚ)
    (pd : ServerAuthority.MovePlayerData) (auth : ServerAuthority.AuthorityState)
    (hb : ServerAuthority.isPositionInBounds toPos = true)
    (hs : ServerAuthority.sqrtGt (ServerAuthority.calculateDistanceSq fromPos toPos)
      (ServerAuthority.calculateMaxMovementDistance
        (timestamp - (if pd.lastMoveTime = 0 then timestamp else pd.lastMoveTime))) = true) :
    (ServerAuthority.validateMovement playerId fromPos toPos timestamp pd now auth).1 =
      some (pd.lastValidPosition.getD fromPos) ∧
    ((alGet (ServerAuthority.validateMovement playerId fromPos toPos timestamp pd now
        auth).2.suspiciousPlayers playerId).map fun r => r.count) =
      some (((alGet auth.suspiciousPlayers playerId).getD ⟨[], 0⟩).count + 1) ∧
    (pd.lastValidPosition.getD fromPos ≠ toPos →
      (ServerAuthority.validateMovement playerId fromPos toPos timestamp pd now auth).1 ≠
        some toPos) := by
  have h1 : (ServerAuthority.validateMovement playerId fromPos toPos timestamp pd now auth).1 =
      some (pd.lastValidPosition.getD fromPos) := by
    simp only [ServerAuthority.validateMovement, hb, ServerAuthority.flagSuspiciousActivity, hs]
    simp
  refine ⟨h1, ?_, ?_⟩
  · simp only [ServerAuthority.validateMovement, hb, ServerAuthority.flagSuspiciousActivity, hs]
    simp [alGet_alSet_self]
  · intro hne
    rw [h1]
    intro hcontra
    exact hne (Option.some.inj hcontra)

/-- Witness for C2 (amended): concrete rejected move from `(0,0)` to
`(3,4)` with zero elapsed time and stored last-valid position `(0,0)`. -/
theorem validateMovement_speed_reject_c2_w :
    (ServerAuthority.validateMovement "P1" ⟨0, 0⟩ ⟨3, 4⟩ 1000 ⟨1000, some ⟨0, 0⟩⟩ 1000 auth0).1 =
      some ⟨0, 0⟩ ∧
    ((alGet (ServerAuthority.validateMovement "P1" ⟨0, 0⟩ ⟨3, 4⟩ 1000 ⟨1000, some ⟨0, 0⟩⟩ 1000
        auth0).2.suspiciousPlayers "P1").map fun r => r.count) = some 1 ∧
    (ServerAuthority.validateMovement "P1" ⟨0, 0⟩ ⟨3, 4⟩ 1000 ⟨1000, some ⟨0, 0⟩⟩ 1000 auth0).1 ≠
      some ⟨3, 4⟩ := by
  have h := validateMovement_speed_reject_c2 "P1" ⟨0, 0⟩ ⟨3, 4⟩ 1000 1000
    ⟨1000, some ⟨0, 0⟩⟩ auth0 (by with_unfolding_all rfl) (by with_unfolding_all rfl)
  exact ⟨h.1, h.2.1, h.2.2 (by with_unfolding_all decide)⟩

/-- Mapping a projection that the modification preserves through `alModify`
leaves the projected lookup unchanged. -/
theorem alGet_map_alModify_pres {κ α β : Type} [DecidableEq κ] (proj : α → β)
    (l : List (κ × α)) (k k' : κ) (f : α → α) (hpres : ∀ v, proj (f v) = proj v) :
    ((alGet (alModify l k f) k').map proj) = ((alGet l k').map proj) := by
  rw [alGet_alModify]
  by_cases h : k' = k
  · subst h
    simp only [if_pos rfl]
    cases alGet l k' with
    | none => rfl
    | some v => simp [hpres]
  · simp [h]

/-- After `applyCombatDamage`, the attacker's `lastAttackTime` is the attack
timestamp (the target update and a possible death transition never touch
it). -/
theorem applyCombatDamage_lastAttack (aId tId : String) (d t : ℚ)
    (gs : ServerAuthority.GameState) (pa : ServerAuthority.PlayerConnState)
    (ha : alGet gs aId = some pa) :
    ((alGet (ServerAuthority.applyCombatDamage aId tId d t gs).2 aId).map
      fun p => p.gameState.lastAttackTime) = some t := by
  unfold ServerAuthority.applyCombatDamage ServerAuthority.handlePlayerDeath
  dsimp only
  split
  · refine Eq.trans (alGet_map_alModify_pres _ _ _ _ _ ?_) ?_
    · intro v; rfl
    refine Eq.trans (alGet_map_alModify_pres _ _ _ _ _ ?_) ?_
    · intro v; rfl
    refine Eq.trans (alGet_map_alModify_pres _ _ _ _ _ ?_) ?_
    · intro v; rfl
    rw [alGet_alModify_self, ha]
    rfl
  · refine Eq.trans (alGet_map_alModify_pres _ _ _ _ _ ?_) ?_
    · intro v; rfl
    rw [alGet_alModify_self, ha]
    rfl

/-- C3: an accepted attack records its client timestamp as the attacker's
`lastAttackTime`, and every subsequent combat action by the same attacker
whose timestamp lies less than the 1500 ms cooldown after that recorded time
is rejected (`null`) — so two attacks of one attacker separated by less than
the cooldown are never both accepted. -/
theorem validateCombatAction_cooldown_c3
    (gs : ServerAuthority.GameState) (auth : ServerAuthority.AuthorityState)
    (attackerId targetId : String) (t1 : ℚ) (r1 : Int) (now1 : ℚ)
    (h1 : (ServerAuthority.validateCombatAction attackerId targetId "ATTACK" t1 r1 now1
      gs auth).1.isSome = true) :
    ((alGet ((ServerAuthority.validateCombatAction attackerId targetId "ATTACK" t1 r1 now1
        gs auth).2.1) attackerId).map fun p => p.gameState.lastAttackTime) = some t1 ∧
    ∀ (targetId2 actionType2 : String) (t2 : ℚ) (r2 : Int) (now2 : ℚ)
      (auth2 : ServerAuthority.AuthorityState), t2 - t1 < 1500 →
      (ServerAuthority.validateCombatAction attackerId targetId2 actionType2 t2 r2 now2
        ((ServerAuthority.validateCombatAction attackerId targetId "ATTACK" t1 r1 now1
          gs auth).2.1) auth2).1 = none := by
  cases hA : alGet gs attackerId with
  | none => simp [ServerAuthority.validateCombatAction, hA] at h1
  | some pa =>
    cases hB : alGet gs targetId with
    | none => simp [ServerAuthority.validateCombatAction, hA, hB] at h1
    | some pb =>
      by_cases hd : pa.gameState.health ≤ 0
      · simp [ServerAuthority.validateCombatAction, hA, hB, hd] at h1
      · by_cases hcd : t1 - pa.gameState.lastAttackTime < ServerAuthority.combatRules.attackCooldown
        · simp [ServerAuthority.validateCombatAction, hA, hB, hd, hcd] at h1
        · by_cases hrg : ServerAuthority.sqrtGt
              (ServerAuthority.calculateDistanceSq pa.gameState.position pb.gameState.position)
              ServerAuthority.combatRules.maxAttackRange = true
          · simp [ServerAuthority.validateCombatAction, hA, hB, hd, hcd, hrg] at h1
          · have hgs1 : (ServerAuthority.validateCombatAction attackerId targetId "ATTACK" t1 r1
                now1 gs auth).2.1 =
                (ServerAuthority.applyCombatDamage attackerId targetId
                  (ServerAuthority.calculateDamage pa pb r1) t1 gs).2 := by
              simp [ServerAuthority.validateCombatAction, hA, hB, hd, hcd, hrg]
            have hlat := applyCombatDamage_lastAttack attackerId targetId
              (ServerAuthority.calculateDamage pa pb r1) t1 gs pa hA
            rw [hgs1]
            refine ⟨hlat, ?_⟩
            intro targetId2 actionType2 t2 r2 now2 auth2 ht
            obtain ⟨pa2, hA2, hval⟩ : ∃ p,
                alGet (ServerAuthority.applyCombatDamage attackerId targetId
                  (ServerAuthority.calculateDamage pa pb r1) t1 gs).2 attackerId = some p ∧
                p.gameState.lastAttackTime = t1 := by
              cases hx : alGet (ServerAuthority.applyCombatDamage attackerId targetId
                  (ServerAuthority.calculateDamage pa pb r1) t1 gs).2 attackerId with
              | none => rw [hx] at hlat; simp at hlat
              | some p =>
                rw [hx] at hlat
                simp only [Option.map_some'] at hlat
                exact ⟨p, rfl, Option.some.inj hlat⟩
            cases hB2 : alGet (ServerAuthority.applyCombatDamage attackerId targetId
                (ServerAuthority.calculateDamage pa pb r1) t1 gs).2 targetId2 with
            | none => simp [ServerAuthority.validateCombatAction, hA2, hB2]
            | some pb2 =>
              by_cases hd2 : pa2.gameState.health ≤ 0
              · simp [ServerAuthority.validateCombatAction, hA2, hB2, hd2]
              · have hcool : t2 - pa2.gameState.lastAttackTime <
                    ServerAuthority.combatRules.attackCooldown := by
                  rw [hval]
                  simpa [ServerAuthority.combatRules] using ht
                simp [ServerAuthority.validateCombatAction, hA2, hB2, hd2, hcool]

/-- Witness for C3: players A and B five units apart; A's attack at t=2000
is accepted, records `lastAttackTime = 2000`, and A's follow-up attack at
t=3000 (1000 ms later, below the 1500 ms cooldown) returns `null`. -/
theorem validateCombatAction_cooldown_c3_w :
    ((alGet ((ServerAuthority.validateCombatAction "A" "B" "ATTACK" 2000 0 0
        gsC3 auth0).2.1) "A").map fun p => p.gameState.lastAttackTime) = some 2000 ∧
    (ServerAuthority.validateCombatAction "A" "B" "ATTACK" 3000 0 0
      ((ServerAuthority.validateCombatAction "A" "B" "ATTACK" 2000 0 0
        gsC3 auth0).2.1) auth0).1 = none := by
  have h := validateCombatAction_cooldown_c3 gsC3 auth0 "A" "B" 2000 0 0
    (by with_unfolding_all rfl)
  exact ⟨h.1, h.2 "B" "ATTACK" 3000 0 0 auth0 (by norm_num)⟩

/-- Indexing with a default into a mapped range. -/
theorem range_map_getD {α : Type} (n : Nat) (f : Nat → α) (d : α) (i : Nat) (h : i < n) :
    ((List.range n).map f).getD i d = f i := by
  rw [List.getD_eq_getElem?_getD, List.getElem?_map, List.getElem?_range h]
  rfl

/-- The table default agrees with `isTerrainAccessible`. -/
theorem getTerrainAccessInfo_accessible (t : String) :
    (MatchManager.getTerrainAccessInfo t).accessible = MatchManager.isTerrainAccessible t := by
  unfold MatchManager.getTerrainAccessInfo MatchManager.isTerrainAccessible
  cases MatchManager.TERRAIN_ACCESS t <;> rfl

/-- `generateRoomTerrain` always yields a 20 x 20 grid whose border cells
are walls, for every room type and room seed. -/
theorem generateRoomTerrain_grid (roomType : String) (seed : Int) :
    (MatchManager.generateRoomTerrain roomType seed).length = 20 ∧
    (∀ row ∈ MatchManager.generateRoomTerrain roomType seed, row.length = 20) ∧
    ∀ i j : Nat, i < 20 → j < 20 → (i = 0 ∨ i = 19 ∨ j = 0 ∨ j = 19) →
      ((MatchManager.generateRoomTerrain roomType seed).getD i []).getD j "" = "wall" := by
  refine ⟨by simp [MatchManager.generateRoomTerrain], ?_, ?_⟩
  · intro row hr
    simp only [MatchManager.generateRoomTerrain, List.mem_map] at hr
    obtain ⟨yv, _, rfl⟩ := hr
    simp
  · intro i j hi hj hb
    unfold MatchManager.generateRoomTerrain
    rw [range_map_getD _ _ _ _ hi, range_map_getD _ _ _ _ hj]
    unfold MatchManager.roomCell
    rw [if_pos]
    tauto

/-- C4: for a coordinate with no cached room, `generateRoomData` returns —
when the coordinate's terrain type is accessible — a room of fixed size
20 x 20 whose terrain grid is 20 x 20 with impassable `"wall"` border cells,
cached under that coordinate; and — when the terrain type is non-accessible
— `null`, leaving the match's room cache unchanged, so no room is ever
materialized or cached for inaccessible terrain. -/
theorem generateRoomData_spec_c4 (m : MatchManager.MMMatchState) (x y : Int)
    (hnc : alGet m.rooms (x, y) = none) :
    (MatchManager.isTerrainAccessible (MatchManager.getTerrainTypeM m x y).1 = true →
      ∃ room : MatchManager.Room,
        (MatchManager.generateRoomData m x y).1 = some room ∧
        room.size = (20, 20) ∧
        room.terrain.length = 20 ∧
        (∀ row ∈ room.terrain, row.length = 20) ∧
        (∀ i j : Nat, i < 20 → j < 20 → (i = 0 ∨ i = 19 ∨ j = 0 ∨ j = 19) →
          (room.terrain.getD i []).getD j "" = "wall") ∧
        (MatchManager.generateRoomData m x y).2.rooms = alSet m.rooms (x, y) room) ∧
    (MatchManager.isTerrainAccessible (MatchManager.getTerrainTypeM m x y).1 = false →
      (MatchManager.generateRoomData m x y).1 = none ∧
      (MatchManager.generateRoomData m x y).2.rooms = m.rooms) := by
  constructor
  · intro hacc
    have hai : (MatchManager.getTerrainAccessInfo
        (MatchManager.getTerrainTypeM m x y).1).accessible = true := by
      rw [getTerrainAccessInfo_accessible]
      exact hacc
    simp only [MatchManager.generateRoomData, hnc, hai]
    exact ⟨_, rfl, rfl, (generateRoomTerrain_grid _ _).1,
      (generateRoomTerrain_grid _ _).2.1, (generateRoomTerrain_grid _ _).2.2, rfl⟩
  · intro hacc
    have hai : (MatchManager.getTerrainAccessInfo
        (MatchManager.getTerrainTypeM m x y).1).accessible = false := by
      rw [getTerrainAccessInfo_accessible]
      exact hacc
    simp only [MatchManager.generateRoomData, hnc, hai]
    exact ⟨rfl, rfl⟩

/-- Witness for C4: in a fresh match with seed 12345, the landmark town at
`(0, 0)` (accessible) yields a room, and the hash terrain at `(3, 1)` is
`mountain` (non-accessible), yielding `null` with the room cache left
empty. -/
theorem generateRoomData_spec_c4_w :
    (MatchManager.generateRoomData mC4 0 0).1.isSome = true ∧
    (MatchManager.generateRoomData mC4 3 1).1 = none ∧
    (MatchManager.generateRoomData mC4 3 1).2.rooms = mC4.rooms := by
  have h1 := (generateRoomData_spec_c4 mC4 0 0 (by with_unfolding_all rfl)).1
    (by with_unfolding_all rfl)
  have h2 := (generateRoomData_spec_c4 mC4 3 1 (by with_unfolding_all rfl)).2
    (by with_unfolding_all rfl)
  obtain ⟨room, hr, _⟩ := h1
  exact ⟨by rw [hr]; rfl, h2.1, h2.2⟩

/-- The target's health after `applyCombatDamage` is exactly the floored
difference `max 0 (old - damage)`. -/
theorem applyCombatDamage_target_health (aId tId : String) (d t : ℚ)
    (gs : ServerAuthority.GameState) (pt : ServerAuthority.PlayerConnState)
    (hb : alGet gs tId = some pt) :
    ((alGet (ServerAuthority.applyCombatDamage aId tId d t gs).2 tId).map
      fun p => p.gameState.health) = some (max 0 (pt.gameState.health - d)) := by
  unfold ServerAuthority.applyCombatDamage ServerAuthority.handlePlayerDeath
  dsimp only
  by_cases hat : tId = aId
  · subst hat
    split
    · simp [alGet_alModify, hb]
    · simp [alGet_alModify, hb]
  · split
    · simp [alGet_alModify, hb, hat]
    · simp [alGet_alModify, hb, hat]

/-- The target's health after `recordPlayerDamage` is exactly the floored
difference `max 0 (old - damage)`. -/
theorem recordPlayerDamage_target_health (m : MatchManager.MMMatchState)
    (aId tId : String) (d : ℚ) (pa pt : MatchManager.MMPlayerState)
    (ha : alGet m.players aId = some pa) (hb : alGet m.players tId = some pt) :
    ((alGet (MatchManager.recordPlayerDamage m aId tId d).2.players tId).map
      fun p => p.health) = some (max 0 (pt.health - d)) := by
  unfold MatchManager.recordPlayerDamage
  dsimp only
  by_cases hat : tId = aId
  · subst hat
    rw [ha] at hb
    have hpe := Option.some.inj hb
    subst hpe
    simp [ha, alGet_alModify]
  · simp [ha, hb, alGet_alModify, hat]

/-- C5: health mutations respect `[0, maxHealth]`.  The combat paths
(`applyCombatDamage`, `recordPlayerDamage`) floor the target's health at 0
for every damage value, and keep it at or below 100 when the damage is
nonnegative and the prior health was at most 100; the consumable path
(`applyItemEffects`) caps health at `maxHealth = 100` whenever the prior
health was at most 100, and keeps it nonnegative when the restoration amount
is nonnegative. -/
theorem health_bounds_c5 :
    (∀ (gs : ServerAuthority.GameState) (aId tId : String) (d t : ℚ)
       (pt : ServerAuthority.PlayerConnState), alGet gs tId = some pt →
       ∀ pt', alGet (ServerAuthority.applyCombatDamage aId tId d t gs).2 tId = some pt' →
         0 ≤ pt'.gameState.health ∧
         (0 ≤ d → pt.gameState.health ≤ 100 → pt'.gameState.health ≤ 100)) ∧
    (∀ (m : MatchManager.MMMatchState) (aId tId : String) (d : ℚ)
       (pa pt : MatchManager.MMPlayerState),
       alGet m.players aId = some pa → alGet m.players tId = some pt →
       ∀ pt', alGet (MatchManager.recordPlayerDamage m aId tId d).2.players tId = some pt' →
         0 ≤ pt'.health ∧ (0 ≤ d → pt.health ≤ 100 → pt'.health ≤ 100)) ∧
    (∀ (p : ServerAuthority.PlayerConnState) (item : ServerAuthority.Item),
       (p.gameState.health ≤ 100 →
         (ServerAuthority.applyItemEffects p item).2.gameState.health ≤ 100) ∧
       (0 ≤ p.gameState.health →
         (∀ e, item.effects = some e → ∀ hv, e.health = some hv → 0 ≤ hv) →
         0 ≤ (ServerAuthority.applyItemEffects p item).2.gameState.health)) := by
  refine ⟨?_, ?_, ?_⟩
  · intro gs aId tId d t pt hb pt' hpt'
    have hval := applyCombatDamage_target_health aId tId d t gs pt hb
    rw [hpt'] at hval
    simp only [Option.map_some'] at hval
    have hval' := Option.some.inj hval
    constructor
    · rw [hval']
      exact le_max_left 0 _
    · intro hd h100
      rw [hval']
      have : pt.gameState.health - d ≤ 100 := by linarith
      exact max_le (by norm_num) this
  · intro m aId tId d pa pt ha hb pt' hpt'
    have hval := recordPlayerDamage_target_health m aId tId d pa pt ha hb
    rw [hpt'] at hval
    simp only [Option.map_some'] at hval
    have hval' := Option.some.inj hval
    constructor
    · rw [hval']
      exact le_max_left 0 _
    · intro hd h100
      rw [hval']
      have : pt.health - d ≤ 100 := by linarith
      exact max_le (by norm_num) this
  · intro p item
    unfold ServerAuthority.applyItemEffects
    cases heff : item.effects with
    | none => exact ⟨fun h => h, fun h _ => h⟩
    | some eff =>
      dsimp only
      cases hh : eff.health with
      | none =>
        cases hm : eff.mana with
        | none => exact ⟨fun h => h, fun h _ => h⟩
        | some mn =>
          by_cases hmz : mn = 0
          · simp only [hmz, if_pos rfl]
            exact ⟨fun h => h, fun h _ => h⟩
          · simp only [hmz, if_neg hmz]
            exact ⟨fun h => h, fun h _ => h⟩
      | some hv =>
        by_cases hz : hv = 0
        · simp only [hz, if_pos rfl]
          cases hm : eff.mana with
          | none => exact ⟨fun h => h, fun h _ => h⟩
          | some mn =>
            by_cases hmz : mn = 0
            · simp only [hmz, if_pos rfl]
              exact ⟨fun h => h, fun h _ => h⟩
            · simp only [if_neg hmz]
              exact ⟨fun h => h, fun h _ => h⟩
        · simp only [if_neg hz]
          cases hm : eff.mana with
          | none =>
            dsimp only
            constructor
            · intro _
              exact min_le_left _ _
            · intro h0 hnn
              have hv0 : 0 ≤ hv := hnn eff rfl hv hh
              have : 0 ≤ p.gameState.health + hv := by linarith
              exact le_min (by norm_num [ServerAuthority.combatRules]) this
          | some mn =>
            by_cases hmz : mn = 0
            · simp only [hmz, if_pos rfl]
              constructor
              · intro _
                exact min_le_left _ _
              · intro h0 hnn
                have hv0 : 0 ≤ hv := hnn eff rfl hv hh
                have : 0 ≤ p.gameState.health + hv := by linarith
                exact le_min (by norm_num [ServerAuthority.combatRules]) this
            · simp only [if_neg hmz]
              constructor
              · intro _
                exact min_le_left _ _
              · intro h0 hnn
                have hv0 : 0 ≤ hv := hnn eff rfl hv hh
                have : 0 ≤ p.gameState.health + hv := by linarith
                exact le_min (by norm_num [ServerAuthority.combatRules]) this

/-- Witness for C5: a 30-damage hit on a full-health player stays in
`[0, 100]`; 150 damage through `recordPlayerDamage` floors at 0; drinking a
health potion at full health caps at 100. -/
theorem health_bounds_c5_w :
    (0 ≤ ((alGet (ServerAuthority.applyCombatDamage "A" "B" 30 2000 gsC3).2 "B").map
        fun p => p.gameState.health).getD 0 ∧
      ((alGet (ServerAuthority.applyCombatDamage "A" "B" 30 2000 gsC3).2 "B").map
        fun p => p.gameState.health).getD 0 ≤ 100) ∧
    0 ≤ ((alGet (MatchManager.recordPlayerDamage mC4 "p1" "p1" 150).2.players "p1").map
        fun p => p.health).getD 0 ∧
    (0 ≤ (ServerAuthority.applyItemEffects (mkConn "A" ⟨0, 0⟩) potionC5).2.gameState.health ∧
      (ServerAuthority.applyItemEffects (mkConn "A" ⟨0, 0⟩) potionC5).2.gameState.health ≤ 100) := by
  obtain ⟨pt', hpt'⟩ : ∃ pt',
      alGet (ServerAuthority.applyCombatDamage "A" "B" 30 2000 gsC3).2 "B" = some pt' := by
    with_unfolding_all exact ⟨_, rfl⟩
  have h1 := health_bounds_c5.1 gsC3 "A" "B" 30 2000 (mkConn "B" ⟨3, 4⟩)
    (by with_unfolding_all rfl) pt' hpt'
  obtain ⟨p0, hp0⟩ : ∃ p0, alGet mC4.players "p1" = some p0 := by
    with_unfolding_all exact ⟨_, rfl⟩
  obtain ⟨q', hq'⟩ : ∃ q',
      alGet (MatchManager.recordPlayerDamage mC4 "p1" "p1" 150).2.players "p1" = some q' := by
    with_unfolding_all exact ⟨_, rfl⟩
  have h2 := health_bounds_c5.2.1 mC4 "p1" "p1" 150 p0 p0 hp0 hp0 q' hq'
  have h3 := health_bounds_c5.2.2 (mkConn "A" ⟨0, 0⟩) potionC5
  refine ⟨⟨?_, ?_⟩, ?_, ?_, ?_⟩
  · simp only [hpt', Option.map_some', Option.getD_some]
    exact h1.1
  · simp only [hpt', Option.map_some', Option.getD_some]
    exact h1.2 (by norm_num) (by with_unfolding_all decide)
  · simp only [hq', Option.map_some', Option.getD_some]
    exact h2.1
  · refine h3.2 (by with_unfolding_all decide) ?_
    intro e he hv hh
    have he' : (⟨some 50, none, none, none⟩ : ServerAuthority.ItemEffects) = e := by
      have hpe : potionC5.effects = some (⟨some 50, none, none, none⟩ :
          ServerAuthority.ItemEffects) := rfl
      rw [hpe] at he
      exact Option.some.inj he
    rw [← he'] at hh
    have : (50 : ℚ) = hv := Option.some.inj hh
    rw [← this]
    norm_num
  · exact h3.1 (by with_unfolding_all decide)

/-- The server-side damage is never below `minDamagePerHit`. -/
theorem calculateDamage_ge_min (a b : ServerAuthority.PlayerConnState) (r : Int) :
    ServerAuthority.combatRules.minDamagePerHit ≤ ServerAuthority.calculateDamage a b r := by
  unfold ServerAuthority.calculateDamage
  exact le_max_left _ _

/-- C6 counterexample: with target B already dead (health 0, alive false),
A's attack at t=2000 is NOT rejected: `validateCombatAction` accepts it,
A's kill counter is incremented again (to 1), and the dead player's state is
mutated (death timestamp overwritten to 2000, combat flag raised) — the
claim says the action is rejected and the dead player's state left
unchanged. -/
theorem dead_target_accepted_c6_cx :
    (ServerAuthority.validateCombatAction "A" "B" "ATTACK" 2000 0 0 gsDeadTarget
      auth0).1.isSome = true ∧
    ((alGet (ServerAuthority.validateCombatAction "A" "B" "ATTACK" 2000 0 0 gsDeadTarget
        auth0).2.1 "A").map fun p => p.gameState.kills) = some 1 ∧
    ((alGet (ServerAuthority.validateCombatAction "A" "B" "ATTACK" 2000 0 0 gsDeadTarget
        auth0).2.1 "B").map fun p =>
        (p.gameState.alive, p.gameState.health, p.gameState.inCombat, p.gameState.deathTime)) =
      some (false, 0, true, some 2000) :=
  ⟨by with_unfolding_all rfl, by with_unfolding_all rfl, by with_unfolding_all rfl⟩

/-- C6 (amended): a dead player accepts no action as the acting party — a
combat action by a dead attacker and an item action by a dead actor are both
rejected (`null`) with the player map unchanged — but a dead player is NOT
protected as a combat target: an otherwise-valid attack on an already-dead
target is accepted, the death transition re-runs (the alive flag stays
false), and the killer's kill counter is incremented again. -/
theorem dead_player_rejection_c6 :
    (∀ (gs : ServerAuthority.GameState) (auth : ServerAuthority.AuthorityState)
       (aId tId ty : String) (t : ℚ) (r : Int) (now : ℚ) pa,
       alGet gs aId = some pa → pa.gameState.health ≤ 0 →
       (ServerAuthority.validateCombatAction aId tId ty t r now gs auth).1 = none ∧
       (ServerAuthority.validateCombatAction aId tId ty t r now gs auth).2.1 = gs) ∧
    (∀ (gs : ServerAuthority.GameState) (auth : ServerAuthority.AuthorityState)
       (pId iId ty : String) (t r1 r2 now : ℚ) p,
       alGet gs pId = some p → p.gameState.health ≤ 0 →
       (ServerAuthority.validateItemAction pId iId ty t gs auth r1 r2 now).1 = none ∧
       (ServerAuthority.validateItemAction pId iId ty t gs auth r1 r2 now).2.1 = gs) ∧
    (∀ (gs : ServerAuthority.GameState) (auth : ServerAuthority.AuthorityState)
       (aId tId : String) (t : ℚ) (r : Int) (now : ℚ) pa pt,
       aId ≠ tId → alGet gs aId = some pa → 0 < pa.gameState.health →
       alGet gs tId = some pt → pt.gameState.health ≤ 0 →
       ¬ t - pa.gameState.lastAttackTime < ServerAuthority.combatRules.attackCooldown →
       ServerAuthority.sqrtGt (ServerAuthority.calculateDistanceSq pa.gameState.position
         pt.gameState.position) ServerAuthority.combatRules.maxAttackRange = false →
       (ServerAuthority.validateCombatAction aId tId "ATTACK" t r now gs auth).1.isSome = true ∧
       ((alGet (ServerAuthority.validateCombatAction aId tId "ATTACK" t r now gs
           auth).2.1 aId).map fun p => p.gameState.kills) = some (pa.gameState.kills + 1) ∧
       ((alGet (ServerAuthority.validateCombatAction aId tId "ATTACK" t r now gs
           auth).2.1 tId).map fun p => p.gameState.alive) = some false) := by
  refine ⟨?_, ?_, ?_⟩
  · intro gs auth aId tId ty t r now pa ha hdead
    cases hb : alGet gs tId with
    | none => exact ⟨by simp [ServerAuthority.validateCombatAction, ha, hb],
        by simp [ServerAuthority.validateCombatAction, ha, hb]⟩
    | some pb => exact ⟨by simp [ServerAuthority.validateCombatAction, ha, hb, hdead],
        by simp [ServerAuthority.validateCombatAction, ha, hb, hdead]⟩
  · intro gs auth pId iId ty t r1 r2 now p hp hdead
    exact ⟨by simp [ServerAuthority.validateItemAction, hp, hdead],
      by simp [ServerAuthority.validateItemAction, hp, hdead]⟩
  · intro gs auth aId tId t r now pa pt hne ha h0 hb hdead hcool hrange
    have hnd : ¬ pa.gameState.health ≤ 0 := not_le.mpr h0
    have hveq : (ServerAuthority.validateCombatAction aId tId "ATTACK" t r now gs auth).2.1 =
        (ServerAuthority.applyCombatDamage aId tId
          (ServerAuthority.calculateDamage pa pt r) t gs).2 := by
      simp [ServerAuthority.validateCombatAction, ha, hb, hnd, hcool, hrange]
    have hdam : (5 : ℚ) ≤ ServerAuthority.calculateDamage pa pt r := by
      simpa [ServerAuthority.combatRules] using calculateDamage_ge_min pa pt r
    refine ⟨?_, ?_, ?_⟩
    · simp [ServerAuthority.validateCombatAction, ha, hb, hnd, hcool, hrange]
    · rw [hveq]
      unfold ServerAuthority.applyCombatDamage ServerAuthority.handlePlayerDeath
      dsimp only
      rw [alGet_alModify_ne gs aId tId _ (Ne.symm hne), hb]
      simp only [Option.map_some', Option.getD_some]
      have hcond : (0 : ℚ) ⊔ (pt.gameState.health - ServerAuthority.calculateDamage pa pt r) ≤ 0 := by
        have hx : pt.gameState.health - ServerAuthority.calculateDamage pa pt r ≤ 0 := by linarith
        simpa using hx
      rw [if_pos hcond]
      rw [alGet_alModify_self]
      rw [alGet_alModify_ne _ tId aId _ hne]
      rw [alGet_alModify_ne _ tId aId _ hne]
      rw [alGet_alModify_self, ha]
      rfl
    · rw [hveq]
      unfold ServerAuthority.applyCombatDamage ServerAuthority.handlePlayerDeath
      dsimp only
      rw [alGet_alModify_ne gs aId tId _ (Ne.symm hne), hb]
      simp only [Option.map_some', Option.getD_some]
      have hcond : (0 : ℚ) ⊔ (pt.gameState.health - ServerAuthority.calculateDamage pa pt r) ≤ 0 := by
        have hx : pt.gameState.health - ServerAuthority.calculateDamage pa pt r ≤ 0 := by linarith
        simpa using hx
      rw [if_pos hcond]
      rw [alGet_alModify_ne _ aId tId _ (Ne.symm hne)]
      rw [alGet_alModify_self]
      rw [alGet_alModify_self]
      rw [alGet_alModify_ne gs aId tId _ (Ne.symm hne), hb]
      rfl

/-- Witness for C6 (amended): the dead player B can neither attack nor act
on items (both `null`, state unchanged), while A's attack on the dead B is
accepted and bumps A's kill counter to 1. -/
theorem dead_player_rejection_c6_w :
    ((ServerAuthority.validateCombatAction "B" "A" "ATTACK" 2000 0 0 gsDeadTarget auth0).1 = none ∧
      (ServerAuthority.validateCombatAction "B" "A" "ATTACK" 2000 0 0 gsDeadTarget
        auth0).2.1 = gsDeadTarget) ∧
    ((ServerAuthority.validateItemAction "B" "itm" "pickup" 2000 gsDeadTarget auth0
        0 0 0).1 = none ∧
      (ServerAuthority.validateItemAction "B" "itm" "pickup" 2000 gsDeadTarget auth0
        0 0 0).2.1 = gsDeadTarget) ∧
    ((ServerAuthority.validateCombatAction "A" "B" "ATTACK" 2000 0 0 gsDeadTarget
        auth0).1.isSome = true ∧
      ((alGet (ServerAuthority.validateCombatAction "A" "B" "ATTACK" 2000 0 0 gsDeadTarget
          auth0).2.1 "A").map fun p => p.gameState.kills) = some 1 ∧
      ((alGet (ServerAuthority.validateCombatAction "A" "B" "ATTACK" 2000 0 0 gsDeadTarget
          auth0).2.1 "B").map fun p => p.gameState.alive) = some false) := by
  have h1 := dead_player_rejection_c6.1 gsDeadTarget auth0 "B" "A" "ATTACK" 2000 0 0 deadB
    (by with_unfolding_all rfl) (by with_unfolding_all decide)
  have h2 := dead_player_rejection_c6.2.1 gsDeadTarget auth0 "B" "itm" "pickup" 2000 0 0 0 deadB
    (by with_unfolding_all rfl) (by with_unfolding_all decide)
  have h3 := dead_player_rejection_c6.2.2 gsDeadTarget auth0 "A" "B" 2000 0 0
    (mkConn "A" ⟨0, 0⟩) deadB (by decide) (by with_unfolding_all rfl)
    (by with_unfolding_all decide) (by with_unfolding_all rfl)
    (by with_unfolding_all decide) (by with_unfolding_all decide)
    (by with_unfolding_all rfl)
  exact ⟨h1, h2, h3.1, h3.2.1, h3.2.2⟩

set_option maxRecDepth 100000 in
/-- C7 counterexample: a player issuing 20 move requests within 1 second has
NO violation recorded (the frequency check divides the window length by the
10-second span, so 20 actions give a rate of 2/s, not 20/s) — the claim says
the violation counter increments after the 10th request. -/
theorem action_frequency_c7_cx :
    ((alGet authC7.playerActions "P1").map fun l => l.length) = some 20 ∧
    alGet authC7.suspiciousPlayers "P1" = none :=
  ⟨by with_unfolding_all rfl, by with_unfolding_all rfl⟩

/-- C7 (amended): `recordPlayerAction` appends the action to the player's
rolling 10-second window; a violation is recorded exactly when the trimmed
window's length divided by the 10-second span exceeds
`maxActionsPerSecond = 10` — i.e. when more than 100 actions sit in the
window; otherwise the violation map is untouched.  In particular 20 requests
within 1 second record no violation. -/
theorem recordPlayerAction_threshold_c7 (auth : ServerAuthority.AuthorityState)
    (playerId actionType data : String) (now : ℚ) :
    (((recentWindow auth playerId actionType data now).length : ℚ) / 10 >
        ServerAuthority.cheatDetection.maxActionsPerSecond →
      ((alGet (ServerAuthority.recordPlayerAction auth playerId actionType data
          now).suspiciousPlayers playerId).map fun sr => sr.count) =
        some (((alGet auth.suspiciousPlayers playerId).getD ⟨[], 0⟩).count + 1)) ∧
    (¬ (((recentWindow auth playerId actionType data now).length : ℚ) / 10 >
        ServerAuthority.cheatDetection.maxActionsPerSecond) →
      (ServerAuthority.recordPlayerAction auth playerId actionType data
        now).suspiciousPlayers = auth.suspiciousPlayers) := by
  unfold ServerAuthority.recordPlayerAction ServerAuthority.checkActionFrequency recentWindow
  dsimp only
  constructor
  · intro h
    rw [if_pos h]
    simp [ServerAuthority.flagSuspiciousActivity, alGet_alSet_self]
  · intro h
    rw [if_neg h]

set_option maxRecDepth 1000000 in
/-- Witness for C7 (amended): the 101st action within the window (rate
10.1/s over the 10-second span) records the first violation, while the 21st
action of a once-per-50-ms stream leaves the violation map untouched. -/
theorem recordPlayerAction_threshold_c7_w :
    ((alGet (ServerAuthority.recordPlayerAction authC7b "P1" "MOVEMENT" "" 5000).suspiciousPlayers
        "P1").map fun sr => sr.count) =
      some (((alGet authC7b.suspiciousPlayers "P1").getD ⟨[], 0⟩).count + 1) ∧
    alGet authC7b.suspiciousPlayers "P1" = none ∧
    (ServerAuthority.recordPlayerAction authC7 "P1" "MOVEMENT" "" 1000).suspiciousPlayers =
      authC7.suspiciousPlayers := by
  refine ⟨(recordPlayerAction_threshold_c7 authC7b "P1" "MOVEMENT" "" 5000).1 ?_,
    by with_unfolding_all rfl,
    (recordPlayerAction_threshold_c7 authC7 "P1" "MOVEMENT" "" 1000).2 ?_⟩
  · with_unfolding_all decide
  · with_unfolding_all decide

/-- C8: after the only client of a match connects and disconnects, the
session registry and the transport-level `playersByMatch` entry are gone,
but the `MatchManager` match (created under its own generated id `m1`, not
the connection's `lobby`) still holds player `p1` and remains `ACTIVE` —
`handlePlayerDisconnection` never touches the `MatchManager` bookkeeping, so
the match-players-are-a-subset-of-attached-sessions invariant is violated
and the emptied match is not discarded. -/
theorem session_match_bookkeeping_c8 :
    gsrv2.players.length = 0 ∧
    alGet gsrv2.playersByMatch "lobby" = none ∧
    ((alGet gsrv2.matchManagerMatches "m1").map fun m =>
      ((alGet m.players "p1").isSome, m.status)) = some (true, "ACTIVE") :=
  ⟨by with_unfolding_all rfl, by with_unfolding_all rfl, by with_unfolding_all rfl⟩

/-- C9: ending a two-player match in which A holds the unique maximum kill
count (1 kill, B dead with 0), the final statistics leave
`mostDeadlyPlayer` as `null` — the winner computation at lines 696-699 has
already raised `maxKills` to the player's own kill count before the
record-holder check at lines 716-719 compares against it, so that check can
never fire — while the winner is correctly A with 1 kill.  The claim's
most-kills award holder therefore never exists. -/
theorem endMatch_awards_c9 :
    (MatchManager.endMatch mC9 "COMPLETED" 300000).1.stats.matchStats.mostDeadlyPlayer = none ∧
    (((MatchManager.endMatch mC9 "COMPLETED" 300000).1.stats.winner).map fun w =>
      (w.playerId, w.kills, w.survived)) = some ("A", 1, true) ∧
    (MatchManager.endMatch mC9 "COMPLETED" 300000).1.stats.totalPlayers = 2 :=
  ⟨by with_unfolding_all rfl, by with_unfolding_all rfl, by with_unfolding_all rfl⟩

/-- C10: for every pair of positions with the requested one in bounds —
however far apart — some client-supplied timestamp makes `validateMovement`
accept the move and return the requested position: the speed bound is
computed from the caller's timestamp minus the recorded `lastMoveTime` (any
positive recorded value), and the obstacle check always reports no
collision, so a large enough timestamp legalises any travel distance. -/
theorem validateMovement_unbounded_c10 (playerId : String)
    (fromPos toPos : ServerAuthority.Pos) (pd : ServerAuthority.MovePlayerData)
    (now : ℚ) (auth : ServerAuthority.AuthorityState)
    (hb : ServerAuthority.isPositionInBounds toPos = true)
    (hl : 0 < pd.lastMoveTime) :
    ServerAuthority.hasObstacleCollision fromPos toPos = false ∧
    ∃ timestamp : ℚ,
      (ServerAuthority.validateMovement playerId fromPos toPos timestamp pd now auth).1 =
        some toPos := by
  refine ⟨rfl, ?_⟩
  have hs0 : 0 ≤ ServerAuthority.calculateDistanceSq fromPos toPos := by
    unfold ServerAuthority.calculateDistanceSq
    positivity
  have hlm : ¬ pd.lastMoveTime = 0 := ne_of_gt hl
  refine ⟨pd.lastMoveTime + 100 * (ServerAuthority.calculateDistanceSq fromPos toPos + 1), ?_⟩
  have hmax : ServerAuthority.calculateMaxMovementDistance
      (pd.lastMoveTime + 100 * (ServerAuthority.calculateDistanceSq fromPos toPos + 1) -
        pd.lastMoveTime) = ServerAuthority.calculateDistanceSq fromPos toPos + 1 := by
    unfold ServerAuthority.calculateMaxMovementDistance ServerAuthority.maxMovementSpeed
      ServerAuthority.cheatDetection
    dsimp only
    ring
  have key : ServerAuthority.sqrtGt (ServerAuthority.calculateDistanceSq fromPos toPos)
      (ServerAuthority.calculateMaxMovementDistance
        (pd.lastMoveTime + 100 * (ServerAuthority.calculateDistanceSq fromPos toPos + 1) -
          pd.lastMoveTime)) = false := by
    rw [hmax]
    unfold ServerAuthority.sqrtGt
    simp only [Bool.or_eq_false_iff, decide_eq_false_iff_not, not_lt]
    constructor
    · linarith
    · nlinarith [hs0]
  unfold ServerAuthority.validateMovement
  rw [if_neg (by simp [hb] : ¬ ServerAuthority.isPositionInBounds toPos = false)]
  dsimp only
  rw [if_neg hlm, key]
  simp [ServerAuthority.hasObstacleCollision]

/-- Witness for C10: a move across the whole world, from the origin to
`(1000, 1000)`, is accepted for some timestamp. -/
theorem validateMovement_unbounded_c10_w :
    ServerAuthority.hasObstacleCollision ⟨0, 0⟩ ⟨1000, 1000⟩ = false ∧
    ∃ timestamp : ℚ,
      (ServerAuthority.validateMovement "P1" ⟨0, 0⟩ ⟨1000, 1000⟩ timestamp
        ⟨1, none⟩ 0 auth0).1 = some ⟨1000, 1000⟩ :=
  validateMovement_unbounded_c10 "P1" ⟨0, 0⟩ ⟨1000, 1000⟩ ⟨1, none⟩ 0 auth0
    (by with_unfolding_all rfl) (by norm_num)
